import Mathlib

/-!
Shallow embedding of the Asteroids simulation core, translated from the
final variant of the source (the clean rewrite with the 1200×1200 virtual
world).  JavaScript numbers are embedded as exact rationals, represented as
integer numerator/denominator pairs with a positive denominator so that
every game operation is executable and kernel-reducible; `Qv.toRat` maps a
value to the rational it denotes.  The real-valued trigonometric and
`Math.random()` draws of the constructors are supplied by an explicit
environment, so every definition stays executable.
-/

namespace Asteroids

/-- An exact JavaScript number: `num / den` with `0 < den`.  Arithmetic is
performed without normalisation (no gcd), which keeps every operation a
plain integer computation. -/
structure Qv where
  num : ℤ
  den : ℤ
  pos : 0 < den
  deriving DecidableEq

namespace Qv

/-- The rational value denoted by a `Qv`. -/
def toRat (a : Qv) : ℚ := (a.num : ℚ) / (a.den : ℚ)

/-- Embed an integer. -/
def ofInt (n : ℤ) : Qv := ⟨n, 1, one_pos⟩

def add (a b : Qv) : Qv :=
  ⟨a.num * b.den + b.num * a.den, a.den * b.den, mul_pos a.pos b.pos⟩

def sub (a b : Qv) : Qv :=
  ⟨a.num * b.den - b.num * a.den, a.den * b.den, mul_pos a.pos b.pos⟩

def mul (a b : Qv) : Qv :=
  ⟨a.num * b.num, a.den * b.den, mul_pos a.pos b.pos⟩

def neg (a : Qv) : Qv := ⟨-a.num, a.den, a.pos⟩

/-- Source: `Math.abs`. -/
def abs (a : Qv) : Qv := ⟨|a.num|, a.den, a.pos⟩

/-- Division by a value known to be positive (every division in the source
divides by a positive constant). -/
def divPos (a b : Qv) (h : 0 < b.num) : Qv :=
  ⟨a.num * b.den, a.den * b.num, mul_pos a.pos h⟩

/-- The order relation denoted by `<` in the source. -/
def lt (a b : Qv) : Prop := a.num * b.den < b.num * a.den

/-- The order relation denoted by `<=` in the source. -/
def le (a b : Qv) : Prop := a.num * b.den ≤ b.num * a.den

/-- Value equality (`==` on exact numbers): cross multiplication. -/
def eqv (a b : Qv) : Prop := a.num * b.den = b.num * a.den

instance (a b : Qv) : Decidable (a.lt b) :=
  inferInstanceAs (Decidable (_ < _))

instance (a b : Qv) : Decidable (a.le b) :=
  inferInstanceAs (Decidable (_ ≤ _))

instance (a b : Qv) : Decidable (a.eqv b) :=
  inferInstanceAs (Decidable (_ = _))

/-- Source: `Math.max` on two numbers. -/
def qmax (a b : Qv) : Qv := if a.lt b then b else a

end Qv

/-- Virtual world width (`const VW = 1200`). -/
def VW : ℤ := 1200

/-- Virtual world height (`const VH = 1200`). -/
def VH : ℤ := 1200

/-- JavaScript `(x + m) % m` for a positive integer extent `m`: JS `%`
truncates the quotient toward zero (`Int.tdiv`). -/
def Qv.wrapMod (x : Qv) (m : ℤ) (hm : 0 < m) : Qv :=
  let an := x.num + m * x.den
  let t := Int.tdiv an (m * x.den)
  ⟨an - m * t * x.den, x.den, x.pos⟩

/-- Source: `function wrapX(x) { return (x + VW) % VW; }` -/
def wrapX (x : Qv) : Qv := Qv.wrapMod x VW (by norm_num [VW])

/-- Source: `function wrapY(y) { return (y + VH) % VH; }` -/
def wrapY (y : Qv) : Qv := Qv.wrapMod y VH (by norm_num [VH])

/-- Source: `0` as a game number. -/
def q0 : Qv := Qv.ofInt 0

/-- World width as a game number. -/
def VWq : Qv := Qv.ofInt VW

/-- World height as a game number. -/
def VHq : Qv := Qv.ofInt VH

/-- Source: `const SHIP_R = 15`. -/
def SHIP_R : Qv := Qv.ofInt 15

/-- Source: `const BULLET_SPEED = 6`. -/
def BULLET_SPEED : Qv := Qv.ofInt 6

/-- Source: `const BULLET_MAX_SCREEN_TRAVEL = 1`. -/
def BULLET_MAX_SCREEN_TRAVEL : Qv := Qv.ofInt 1

/-- Source: `const BULLET_X_SCREEN_TRAVEL = 0.8`. -/
def BULLET_X_SCREEN_TRAVEL : Qv := ⟨8, 10, by norm_num⟩

/-- Source: `const BULLET_Y_SCREEN_TRAVEL = 0.6`. -/
def BULLET_Y_SCREEN_TRAVEL : Qv := ⟨6, 10, by norm_num⟩

/-- Source: `const SAUCER_SCORE = 1000`. -/
def SAUCER_SCORE : ℤ := 1000

/-- The split threshold `20` (`if (a.r > 20) ...`). -/
def q20 : Qv := Qv.ofInt 20

/-- The drag factor `0.995` applied to the ship's velocity every tick. -/
def DRAG : Qv := ⟨995, 1000, by norm_num⟩

/-- The thrust acceleration `0.08`. -/
def THRUST_ACCEL : Qv := ⟨8, 100, by norm_num⟩

/-- Source: `dist(ax,ay,bx,by) < r` where `dist = Math.hypot`: since the hypotenuse
is nonnegative, it is `< r` iff `r` is positive and the squared distance is
below `r²`. -/
def distLtB (x1 y1 x2 y2 r : Qv) : Bool :=
  decide (q0.lt r) &&
    decide ((((x1.sub x2).mul (x1.sub x2)).add
      ((y1.sub y2).mul (y1.sub y2))).lt (r.mul r))

/-- Source: `class Ship` state: position, heading, rotation rate, velocity, thrust
flag, lives and invulnerability frames.  The heading `a` is a raw number
(radians); its cosine/sine are supplied by the environment. -/
structure Ship where
  x : Qv
  y : Qv
  a : Qv
  r : Qv
  rot : Qv
  vx : Qv
  vy : Qv
  thrusting : Bool
  lives : ℤ
  invuln : ℤ
  deriving DecidableEq

/-- Source: `new Ship()`. -/
def mkShip : Ship :=
  ⟨Qv.divPos VWq (Qv.ofInt 2) (by norm_num [Qv.ofInt]),
   Qv.divPos VHq (Qv.ofInt 2) (by norm_num [Qv.ofInt]),
   q0, SHIP_R, q0, q0, q0, false, 3, 0⟩

/-- Source: `Ship.update()`: heading += rot; optional thrust along the heading;
`vx *= 0.995; vy *= 0.995` (always); wrap the position; decrement the
invulnerability counter when positive.  `cosA`/`sinA` are the values of
`Math.cos(this.a)`/`Math.sin(this.a)` after the rotation step. -/
def Ship.update (cosA sinA : Qv) (s : Ship) : Ship :=
  let a1 := s.a.add s.rot
  let vx1 := if s.thrusting then s.vx.add (THRUST_ACCEL.mul cosA) else s.vx
  let vy1 := if s.thrusting then s.vy.add (THRUST_ACCEL.mul sinA) else s.vy
  let vx2 := vx1.mul DRAG
  let vy2 := vy1.mul DRAG
  { s with
    a := a1, vx := vx2, vy := vy2,
    x := wrapX (s.x.add vx2), y := wrapY (s.y.add vy2),
    invuln := if 0 < s.invuln then s.invuln - 1 else s.invuln }

/-- Source: `class Bullet`: per-axis accumulated travel (`distX`/`distY`) against
per-axis maxima `maxX = VW * 0.8`, `maxY = VH * 0.6`. -/
structure Bullet where
  x : Qv
  y : Qv
  dx : Qv
  dy : Qv
  distX : Qv
  distY : Qv
  maxX : Qv
  maxY : Qv
  deriving DecidableEq

/-- Source: `new Bullet(x, y, a)` with `dx = BULLET_SPEED*cos(a)`,
`dy = BULLET_SPEED*sin(a)` supplied as the already-evaluated components. -/
def mkBullet (x y dx dy : Qv) : Bullet :=
  ⟨x, y, dx, dy, q0, q0,
   VWq.mul BULLET_X_SCREEN_TRAVEL, VHq.mul BULLET_Y_SCREEN_TRAVEL⟩

/-- Source: `Bullet.update()`: wrap the position, accumulate `|dx|`/`|dy|`. -/
def Bullet.update (b : Bullet) : Bullet :=
  { b with
    x := wrapX (b.x.add b.dx), y := wrapY (b.y.add b.dy),
    distX := b.distX.add b.dx.abs, distY := b.distY.add b.dy.abs }

/-- Source: `get alive() { return this.distX < this.maxX && this.distY < this.maxY }` -/
def Bullet.alive (b : Bullet) : Bool :=
  decide (b.distX.lt b.maxX) && decide (b.distY.lt b.maxY)

/-- Source: `class Asteroid`: position, radius, constant velocity, shape seed. -/
structure Asteroid where
  x : Qv
  y : Qv
  r : Qv
  dx : Qv
  dy : Qv
  noise : Qv
  deriving DecidableEq

/-- The random draws consumed by `new Asteroid`: velocity components
`cos(ang)*spd` / `sin(ang)*spd` and the shape seed. -/
structure AstDraw where
  dx : Qv
  dy : Qv
  noise : Qv

/-- Source: `new Asteroid(x, y, r)` with its randomized velocity and seed. -/
def mkAsteroid (x y r : Qv) (d : AstDraw) : Asteroid :=
  ⟨x, y, r, d.dx, d.dy, d.noise⟩

/-- Source: `Asteroid.update()`: straight-line wrapped motion. -/
def Asteroid.update (a : Asteroid) : Asteroid :=
  { a with x := wrapX (a.x.add a.dx), y := wrapY (a.y.add a.dy) }

/-- Source: `class Saucer`. -/
structure Saucer where
  x : Qv
  y : Qv
  speed : Qv
  r : Qv
  fireTimer : Qv
  side : ℤ
  alive : Bool
  deriving DecidableEq

/-- Source: `class SaucerBullet`: Euclidean accumulated travel against
`maxDist = Math.max(VW, VH) * BULLET_MAX_SCREEN_TRAVEL`.  The per-tick
increment `Math.hypot(dx, dy)` equals `5.5` exactly for constructor values
`dx = 5.5*cos(a)`, `dy = 5.5*sin(a)`; it is stored as `stepDist`. -/
structure SaucerBullet where
  x : Qv
  y : Qv
  dx : Qv
  dy : Qv
  dist : Qv
  maxDist : Qv
  stepDist : Qv
  deriving DecidableEq

/-- Source: `new SaucerBullet(x, y, a)` with evaluated direction components. -/
def mkSaucerBullet (x y dx dy : Qv) : SaucerBullet :=
  ⟨x, y, dx, dy, q0, (Qv.qmax VWq VHq).mul BULLET_MAX_SCREEN_TRAVEL,
   ⟨11, 2, by norm_num⟩⟩

/-- Source: `SaucerBullet.update()`. -/
def SaucerBullet.update (sb : SaucerBullet) : SaucerBullet :=
  { sb with
    x := wrapX (sb.x.add sb.dx), y := wrapY (sb.y.add sb.dy),
    dist := sb.dist.add sb.stepDist }

/-- Source: `get alive() { return this.dist < this.maxDist }` -/
def SaucerBullet.alive (sb : SaucerBullet) : Bool :=
  decide (sb.dist.lt sb.maxDist)

/-- Source: `class Particle` (also the ship-explosion fragment objects, which have
the same `update`): note that `Particle.update` does NOT wrap. -/
structure Particle where
  x : Qv
  y : Qv
  vx : Qv
  vy : Qv
  size : Qv
  life : Qv
  deriving DecidableEq

/-- Source: `Particle.update()`: `x += vx; y += vy; life--` — no wraparound. -/
def Particle.update (p : Particle) : Particle :=
  { p with
    x := p.x.add p.vx, y := p.y.add p.vy,
    life := p.life.sub (Qv.ofInt 1) }

/-- Random draws consumed by a particle constructor (velocity, life,
size). -/
structure PartDraw where
  vx : Qv
  vy : Qv
  size : Qv
  life : Qv

/-- Random draws consumed when a saucer fires: the reset value of its fire
timer and the evaluated direction components `5.5*cos(base+inacc)`,
`5.5*sin(base+inacc)` of the bullet aimed at the ship. -/
structure FireDraw where
  newTimer : Qv
  bdx : Qv
  bdy : Qv

/-- Random draws consumed per asteroid by `resetAsteroids`:
`randRange(0, VW)`, `randRange(0, VH)`, `randRange(26, 44)`. -/
structure SpawnDraw where
  x : Qv
  y : Qv
  r : Qv

/-- The per-tick environment: elapsed time, the evaluated trigonometric
values, and streams of random draws.  `spawnSaucer` is `some s` when
`performance.now() >= saucerNextSpawn` fires `maybeSpawnSaucer` this
tick. -/
structure Env where
  cosA : Qv
  sinA : Qv
  dt : Qv
  astDraw : ℕ → AstDraw
  partDraw : ℕ → PartDraw
  fireDraw : ℕ → FireDraw
  spawnDraw : ℕ → SpawnDraw
  spawnSaucer : Option Saucer

/-- Source: `Saucer.update(dt)`: horizontal drift scaled by elapsed time, despawn
beyond an 80-pixel margin, fire-timer countdown and firing at the ship. -/
def Saucer.update (env : Env) (rng : ℕ) (s : Saucer) :
    Saucer × List SaucerBullet × ℕ :=
  let x1 := s.x.add (s.speed.mul
    (Qv.divPos env.dt ⟨1000, 60, by norm_num⟩ (by norm_num)))
  let alive1 := s.alive
    && !(decide (s.side < 0) && decide ((Qv.ofInt (VW + 80)).lt x1))
    && !(decide (0 < s.side) && decide (x1.lt (Qv.ofInt (-80))))
  if alive1 = false then
    ({ s with x := x1, alive := alive1 }, [], rng)
  else
    let ft1 := s.fireTimer.sub env.dt
    if ft1.le q0 then
      let d := env.fireDraw rng
      ({ s with x := x1, fireTimer := d.newTimer, alive := alive1 },
       [mkSaucerBullet x1 s.y d.bdx d.bdy], rng + 1)
    else
      ({ s with x := x1, fireTimer := ft1, alive := alive1 }, [], rng)

/-- Scan a JS array from its last index downward and splice out the first
match (i.e. the matching element with the highest index), returning it and
the remaining list in original order. -/
def removeLast? {α : Type} (p : α → Bool) : List α → Option (α × List α)
  | [] => none
  | a :: rest =>
    match removeLast? p rest with
    | some (hit, rest') => some (hit, a :: rest')
    | none => if p a then some (a, rest) else none

/-- Source: `saucers.forEach(s => s.update(dt))`, collecting the saucer bullets
pushed by firing saucers (in push order). -/
def saucersUpdate (env : Env) : List Saucer → ℕ →
    List Saucer × List SaucerBullet × ℕ
  | [], rng => ([], [], rng)
  | s :: ss, rng =>
    let (s1, nb, rng1) := Saucer.update env rng s
    let (ss1, nbs, rng2) := saucersUpdate env ss rng1
    (s1 :: ss1, nb ++ nbs, rng2)

/-- Source: `explodeAt(x, y, amount)` and the 12 fragment objects of
`explodeShip`: push `n` particles at `(x, y)` with randomized velocity,
life and size. -/
def explodeParts (env : Env) (rng : ℕ) (x y : Qv) (n : ℕ) : List Particle :=
  (List.range n).map fun i =>
    let d := env.partDraw (rng + i)
    ⟨x, y, d.vx, d.vy, d.size, d.life⟩

/-- The children pushed when a destroyed asteroid has `r > 20`: two
asteroids of radius `r / 2` at `(x±4, y±4)`; none otherwise. -/
def splitChildren (env : Env) (rng : ℕ) (a : Asteroid) : List Asteroid :=
  if q20.lt a.r then
    [mkAsteroid (a.x.add (Qv.ofInt 4)) (a.y.add (Qv.ofInt 4))
       (Qv.divPos a.r (Qv.ofInt 2) (by norm_num [Qv.ofInt])) (env.astDraw rng),
     mkAsteroid (a.x.sub (Qv.ofInt 4)) (a.y.sub (Qv.ofInt 4))
       (Qv.divPos a.r (Qv.ofInt 2) (by norm_num [Qv.ofInt]))
       (env.astDraw (rng + 1))]
  else []

/-- The mutable state threaded through the bullet collision pass. -/
structure PassSt where
  asteroids : List Asteroid
  saucers : List Saucer
  score : ℤ
  particles : List Particle
  rng : ℕ

/-- One iteration of the bullet collision loop body (for the bullet at the
current index): test against asteroids last-index first — on hit, +100
score, remove the asteroid, push split children, and stop (`removed`
prevents the saucer test); otherwise test against saucers last-index first
— on hit, +1000 score, remove the saucer.  Returns whether the bullet
survives. -/
def bulletStep (env : Env) (b : Bullet) (st : PassSt) : Bool × PassSt :=
  match removeLast? (fun a => distLtB b.x b.y a.x a.y a.r) st.asteroids with
  | some (a, rest) =>
    (false,
     { asteroids := rest ++ splitChildren env (st.rng + 10) a,
       saucers := st.saucers,
       score := st.score + 100,
       particles := st.particles ++ explodeParts env st.rng a.x a.y 10,
       rng := st.rng + 12 })
  | none =>
    match removeLast? (fun s => distLtB b.x b.y s.x s.y s.r) st.saucers with
    | some (sc, rest) =>
      (false,
       { st with
         saucers := rest,
         score := st.score + SAUCER_SCORE,
         particles := st.particles ++ explodeParts env st.rng sc.x sc.y 16,
         rng := st.rng + 16 })
    | none => (true, st)

/-- The bullet collision pass: `for (let i = bullets.length-1; i >= 0; i--)`
— the bullet at the highest index is processed first, and only the current
bullet is ever spliced, so lower indices are unaffected. -/
def bulletPass (env : Env) : List Bullet → PassSt → List Bullet × PassSt
  | [], st => ([], st)
  | b :: bs, st =>
    let (kept, st1) := bulletPass env bs st
    let (keep, st2) := bulletStep env b st1
    (if keep then b :: kept else kept, st2)

/-- The state threaded through the two ship damage passes. -/
structure HitSt where
  ship : Ship
  saucerBullets : List SaucerBullet
  gameOver : Bool
  particles : List Particle
  rng : ℕ

/-- Source: `VW / 2`. -/
def halfW : Qv := Qv.divPos VWq (Qv.ofInt 2) (by norm_num [Qv.ofInt])

/-- Source: `VH / 2`. -/
def halfH : Qv := Qv.divPos VHq (Qv.ofInt 2) (by norm_num [Qv.ofInt])

/-- Saucer bullets → ship: only when `ship.invuln <= 0`; the matching
saucer bullet with the highest index costs one life, resets the ship to the
world center with zero velocity, sets `invuln = 240`, removes the bullet,
and sets `gameOver` when `lives <= 0`; the loop then `break`s, so at most
one saucer bullet hits per tick. -/
def sbShipPass (env : Env) (st : HitSt) : HitSt :=
  if st.ship.invuln ≤ 0 then
    match removeLast?
        (fun sb => distLtB sb.x sb.y st.ship.x st.ship.y st.ship.r)
        st.saucerBullets with
    | some (_, rest) =>
      { ship := { st.ship with
          lives := st.ship.lives - 1,
          x := halfW, y := halfH, vx := q0, vy := q0, invuln := 240 },
        saucerBullets := rest,
        gameOver := st.gameOver || decide (st.ship.lives - 1 ≤ 0),
        particles := st.particles
          ++ explodeParts env st.rng st.ship.x st.ship.y 12,
        rng := st.rng + 12 }
    | none => st
  else st

/-- Asteroids → ship: `ship.invuln <= 0` is re-checked (a saucer-bullet hit
this tick sets it to 240, skipping this pass); the matching asteroid with
the highest index damages the ship exactly as above but with
`invuln = 90`, and the asteroid itself is NOT removed. -/
def astShipPass (env : Env) (asteroids : List Asteroid) (st : HitSt) :
    HitSt :=
  if st.ship.invuln ≤ 0 then
    match removeLast?
        (fun a => distLtB st.ship.x st.ship.y a.x a.y (st.ship.r.add a.r))
        asteroids with
    | some _ =>
      { st with
        ship := { st.ship with
          lives := st.ship.lives - 1,
          x := halfW, y := halfH, vx := q0, vy := q0, invuln := 90 },
        gameOver := st.gameOver || decide (st.ship.lives - 1 ≤ 0),
        particles := st.particles
          ++ explodeParts env st.rng st.ship.x st.ship.y 12,
        rng := st.rng + 12 }
    | none => st
  else st

/-- The global game state mutated by the main loop. -/
structure GameState where
  ship : Ship
  bullets : List Bullet
  asteroids : List Asteroid
  particles : List Particle
  saucers : List Saucer
  saucerBullets : List SaucerBullet
  score : ℤ
  wave : ℤ
  started : Bool
  gameOver : Bool
  deriving DecidableEq

/-- One execution of the body of `loop` (one simulation tick).  Before the
start trigger the body only draws the prompt; afterwards it always runs the
full update/collision sequence — including while `gameOver` is set, which
only additionally forces `thrusting = false`. -/
def tick (env : Env) (g : GameState) : GameState :=
  if g.started = false then g
  else
    let ship1 := Ship.update env.cosA env.sinA g.ship
    let bullets1 := (g.bullets.map Bullet.update).filter Bullet.alive
    let asteroids1 := g.asteroids.map Asteroid.update
    let (saucers1, newSB, rng1) := saucersUpdate env g.saucers 0
    let saucerBullets1 :=
      ((g.saucerBullets ++ newSB).map SaucerBullet.update).filter
        SaucerBullet.alive
    let (bullets2, ps) := bulletPass env bullets1
      ⟨asteroids1, saucers1, g.score, g.particles, rng1⟩
    let hs1 := sbShipPass env
      ⟨ship1, saucerBullets1, g.gameOver, ps.particles, ps.rng⟩
    let hs2 := astShipPass env ps.asteroids hs1
    let saucers2 := ps.saucers.filter (fun s => s.alive)
    let saucers3 := saucers2 ++ env.spawnSaucer.toList
    let particles1 :=
      (hs2.particles.map Particle.update).filter
        (fun p => decide (q0.lt p.life))
    let ship2 :=
      if hs2.gameOver then { hs2.ship with thrusting := false } else hs2.ship
    { ship := ship2, bullets := bullets2, asteroids := ps.asteroids,
      particles := particles1, saucers := saucers3,
      saucerBullets := hs2.saucerBullets, score := ps.score, wave := g.wave,
      started := g.started, gameOver := hs2.gameOver }

/-- Source: `resetAsteroids()`: `5 + (wave - 1)` asteroids at random positions with
radii drawn from `randRange(26, 44)`. -/
def resetAsteroids (env : Env) (wave : ℤ) : List Asteroid :=
  (List.range (5 + (wave - 1)).toNat).map fun i =>
    let sd := env.spawnDraw i
    mkAsteroid sd.x sd.y sd.r (env.astDraw i)

/-- The scheduled wave-regeneration callback
(`setTimeout(..., 600)` fired when `asteroids.length === 0` was observed):
re-validates that the collection is still empty, then increments the wave
counter and repopulates. -/
def waveReset (env : Env) (g : GameState) : GameState :=
  if g.asteroids.isEmpty then
    { g with wave := g.wave + 1, asteroids := resetAsteroids env (g.wave + 1) }
  else g

/-- Witness particle for C1: in range at `x = 1199` with a legal
constructor velocity `vx = 1.4 ∈ [-1.5, 1.5)`. -/
def pC1 : Particle :=
  ⟨Qv.ofInt 1199, Qv.ofInt 600, ⟨7, 5, by norm_num⟩, q0,
   Qv.ofInt 2, Qv.ofInt 30⟩

/-- Witness bullet for C1: fired rightward from `(100, 100)`. -/
def bC1 : Bullet := mkBullet (Qv.ofInt 100) (Qv.ofInt 100) (Qv.ofInt 6) q0

/-- Witness ship for C1: drifting left at the left edge. -/
def sC1 : Ship :=
  ⟨Qv.ofInt 10, Qv.ofInt 300, q0, SHIP_R, q0, Qv.ofInt (-5), q0,
   false, 3, 0⟩

/-- A fixed concrete environment for the concrete scenarios: heading
cosine 1, sine 0, `dt = 16` ms, constant draw streams, no saucer spawn. -/
def envT : Env :=
  ⟨Qv.ofInt 1, q0, Qv.ofInt 16,
   fun _ => ⟨q0, q0, q0⟩,
   fun _ => ⟨q0, q0, q0, q0⟩,
   fun _ => ⟨Qv.ofInt 1000, q0, q0⟩,
   fun _ => ⟨q0, q0, Qv.ofInt 30⟩,
   none⟩

/-- Scenario ship for C2: idle at the world center with `invuln = 1`. -/
def shipC2 : Ship :=
  ⟨Qv.ofInt 600, Qv.ofInt 600, q0, SHIP_R, q0, q0, q0, false, 3, 1⟩

/-- Scenario saucer bullet for C2: arrives at `(600, 595)` this tick,
5 pixels from the ship center (inside `ship.r = 15`). -/
def sbC2 : SaucerBullet :=
  ⟨⟨1189, 2, by norm_num⟩, Qv.ofInt 595, ⟨11, 2, by norm_num⟩, q0, q0,
   Qv.ofInt 1200, ⟨11, 2, by norm_num⟩⟩

/-- Scenario state for C2. -/
def gC2 : GameState :=
  ⟨shipC2, [], [], [], [], [sbC2], 0, 1, true, false⟩

/-- Scenario state for the C2 witness: same state as `gC2` but entering
the tick with `invuln = 2`. -/
def gC2w : GameState :=
  ⟨⟨Qv.ofInt 600, Qv.ofInt 600, q0, SHIP_R, q0, q0, q0, false, 3, 2⟩,
   [], [], [], [], [sbC2], 0, 1, true, false⟩

/-- Scenario ship for C3: one life left, no invulnerability, at the world
center. -/
def shipC3 : Ship :=
  ⟨Qv.ofInt 600, Qv.ofInt 600, q0, SHIP_R, q0, q0, q0, false, 1, 0⟩

/-- Scenario asteroid for C3: radius 40, drifting down through the world
center at 0.2 per tick (a legal constructor speed). -/
def astC3 : Asteroid :=
  ⟨Qv.ofInt 600, Qv.ofInt 600, Qv.ofInt 40, q0, ⟨1, 5, by norm_num⟩, q0⟩

/-- Scenario state for C3. -/
def gC3 : GameState :=
  ⟨shipC3, [], [astC3], [], [], [], 0, 1, true, false⟩

/-- The state reached from `gC3` after 46 ticks (computed value): the ship
died on tick 1 (lives 0, `gameOver` set, `invuln = 90`) and the asteroid
keeps drifting while the invulnerability window runs out. -/
def gC3mid : GameState :=
  ⟨⟨⟨1200000000000000000000000000000000000000000000000000000000000000000000000000000000000000000000000000000000000000000000000000000000000000000000000000000000000000000000000000000000000000000000000000000000000000000000000000000000000000000000000000000000000000000000000000000000000000000000000000000000000000000000000000000000000000000000000000000000000000000000000000000000000000000000000000000000000000000000000000000000000000000000000000000000000000000000000000000000000000000000000000000000000000000000000000000000000000000000000000000000000000000000000000000000000000000000000000000000000000000000000000000000000000000000000000000000000000000000000000000000000000000000000000000000000000000000000000000000000000000000000000000000000000000000000000000000000000000000000000000000000000000000000000000000000000000000000000000000000000000000000000000000000000000000000000000000000000000000000000000000000000000000000000000000000000000000000000000000000000000000000000000000000000000000000000000000000000000000000000000000000000000000000000000000000000000000000000000000000000000000000000000000000000000000000000000000000000000000000000000000000000000000000000000000000000000000000000000000000000000000000000000000000000000000000000000000000000000000000000000000000000000000000000000000000000000000000000000000000000000000000000000000000000000000000000000000000000000000000000000000000000000000000000000000000000000000000000000000000000000000000000000000000000000000000000000000000000000000000000000000000000000000000000000000000000000000000000000000000000000000000000000000000000000000000000000000000000000000000000000000000000000000000000000000000000000000000000000000000000000000000000000000000000000000000000000000000000000000000000000000000000000000000000000000000000000000000000000000000000000000000000000000000000000000000000000000000000000000000000000000000000000000000000000000000000000000000000000000000000000000000000000000000000000000000000000000000000000000000000000000000000000000000000000000000000000000000000000000000000000000000000000000000000000000000000000000000000000000000000000000000000000000000000000000000000000000000000000000000000000000000000000000000000000000000000000000000000000000000000000000000000000000000000000000000000000000000000000000000000000000000000000000000000000000000000000000000000000000000000000000000000000000000000000000000000000000000000000000000000000000000000000000000000000000000000000000000000000000000000000000000000000000000000000000000000000000000000000000000000000000000000000000000000000000000000000000000000000000000000000000000000000000000000000000000000000000000000000000000000000000000000000000000000000000000000000000000000000000000000000000000000000000000000000000000000000000000000000000000000000000000000000000000000000000000000000000000000000000000000000000000000000000000000000000000000000000000000000000000000000000000000000000000000000000000000000000000000000000000000000000000000000000000000000000000000000000000000000000000000000000000000000000000000000000000000000000000000000000000000000000000000000000000000000000000000000000000000000000000, 2000000000000000000000000000000000000000000000000000000000000000000000000000000000000000000000000000000000000000000000000000000000000000000000000000000000000000000000000000000000000000000000000000000000000000000000000000000000000000000000000000000000000000000000000000000000000000000000000000000000000000000000000000000000000000000000000000000000000000000000000000000000000000000000000000000000000000000000000000000000000000000000000000000000000000000000000000000000000000000000000000000000000000000000000000000000000000000000000000000000000000000000000000000000000000000000000000000000000000000000000000000000000000000000000000000000000000000000000000000000000000000000000000000000000000000000000000000000000000000000000000000000000000000000000000000000000000000000000000000000000000000000000000000000000000000000000000000000000000000000000000000000000000000000000000000000000000000000000000000000000000000000000000000000000000000000000000000000000000000000000000000000000000000000000000000000000000000000000000000000000000000000000000000000000000000000000000000000000000000000000000000000000000000000000000000000000000000000000000000000000000000000000000000000000000000000000000000000000000000000000000000000000000000000000000000000000000000000000000000000000000000000000000000000000000000000000000000000000000000000000000000000000000000000000000000000000000000000000000000000000000000000000000000000000000000000000000000000000000000000000000000000000000000000000000000000000000000000000000000000000000000000000000000000000000000000000000000000000000000000000000000000000000000000000000000000000000000000000000000000000000000000000000000000000000000000000000000000000000000000000000000000000000000000000000000000000000000000000000000000000000000000000000000000000000000000000000000000000000000000000000000000000000000000000000000000000000000000000000000000000000000000000000000000000000000000000000000000000000000000000000000000000000000000000000000000000000000000000000000000000000000000000000000000000000000000000000000000000000000000000000000000000000000000000000000000000000000000000000000000000000000000000000000000000000000000000000000000000000000000000000000000000000000000000000000000000000000000000000000000000000000000000000000000000000000000000000000000000000000000000000000000000000000000000000000000000000000000000000000000000000000000000000000000000000000000000000000000000000000000000000000000000000000000000000000000000000000000000000000000000000000000000000000000000000000000000000000000000000000000000000000000000000000000000000000000000000000000000000000000000000000000000000000000000000000000000000000000000000000000000000000000000000000000000000000000000000000000000000000000000000000000000000000000000000000000000000000000000000000000000000000000000000000000000000000000000000000000000000000000000000000000000000000000000000000000000000000000000000000000000000000000000000000000000000000000000000000000000000000000000000000000000000000000000000000000000000000000000000000000000000000000000000000000000000000000000000000000000000000000000000000000000000000000000000000000000000000000, by decide⟩, ⟨1200000000000000000000000000000000000000000000000000000000000000000000000000000000000000000000000000000000000000000000000000000000000000000000000000000000000000000000000000000000000000000000000000000000000000000000000000000000000000000000000000000000000000000000000000000000000000000000000000000000000000000000000000000000000000000000000000000000000000000000000000000000000000000000000000000000000000000000000000000000000000000000000000000000000000000000000000000000000000000000000000000000000000000000000000000000000000000000000000000000000000000000000000000000000000000000000000000000000000000000000000000000000000000000000000000000000000000000000000000000000000000000000000000000000000000000000000000000000000000000000000000000000000000000000000000000000000000000000000000000000000000000000000000000000000000000000000000000000000000000000000000000000000000000000000000000000000000000000000000000000000000000000000000000000000000000000000000000000000000000000000000000000000000000000000000000000000000000000000000000000000000000000000000000000000000000000000000000000000000000000000000000000000000000000000000000000000000000000000000000000000000000000000000000000000000000000000000000000000000000000000000000000000000000000000000000000000000000000000000000000000000000000000000000000000000000000000000000000000000000000000000000000000000000000000000000000000000000000000000000000000000000000000000000000000000000000000000000000000000000000000000000000000000000000000000000000000000000000000000000000000000000000000000000000000000000000000000000000000000000000000000000000000000000000000000000000000000000000000000000000000000000000000000000000000000000000000000000000000000000000000000000000000000000000000000000000000000000000000000000000000000000000000000000000000000000000000000000000000000000000000000000000000000000000000000000000000000000000000000000000000000000000000000000000000000000000000000000000000000000000000000000000000000000000000000000000000000000000000000000000000000000000000000000000000000000000000000000000000000000000000000000000000000000000000000000000000000000000000000000000000000000000000000000000000000000000000000000000000000000000000000000000000000000000000000000000000000000000000000000000000000000000000000000000000000000000000000000000000000000000000000000000000000000000000000000000000000000000000000000000000000000000000000000000000000000000000000000000000000000000000000000000000000000000000000000000000000000000000000000000000000000000000000000000000000000000000000000000000000000000000000000000000000000000000000000000000000000000000000000000000000000000000000000000000000000000000000000000000000000000000000000000000000000000000000000000000000000000000000000000000000000000000000000000000000000000000000000000000000000000000000000000000000000000000000000000000000000000000000000000000000000000000000000000000000000000000000000000000000000000000000000000000000000000000000000000000000000000000000000000000000000000000000000000000000000000000000000000000000000000000000000000000000000000000000000000000000000000000000000000000000000000000000000000000000000000000000000000, 2000000000000000000000000000000000000000000000000000000000000000000000000000000000000000000000000000000000000000000000000000000000000000000000000000000000000000000000000000000000000000000000000000000000000000000000000000000000000000000000000000000000000000000000000000000000000000000000000000000000000000000000000000000000000000000000000000000000000000000000000000000000000000000000000000000000000000000000000000000000000000000000000000000000000000000000000000000000000000000000000000000000000000000000000000000000000000000000000000000000000000000000000000000000000000000000000000000000000000000000000000000000000000000000000000000000000000000000000000000000000000000000000000000000000000000000000000000000000000000000000000000000000000000000000000000000000000000000000000000000000000000000000000000000000000000000000000000000000000000000000000000000000000000000000000000000000000000000000000000000000000000000000000000000000000000000000000000000000000000000000000000000000000000000000000000000000000000000000000000000000000000000000000000000000000000000000000000000000000000000000000000000000000000000000000000000000000000000000000000000000000000000000000000000000000000000000000000000000000000000000000000000000000000000000000000000000000000000000000000000000000000000000000000000000000000000000000000000000000000000000000000000000000000000000000000000000000000000000000000000000000000000000000000000000000000000000000000000000000000000000000000000000000000000000000000000000000000000000000000000000000000000000000000000000000000000000000000000000000000000000000000000000000000000000000000000000000000000000000000000000000000000000000000000000000000000000000000000000000000000000000000000000000000000000000000000000000000000000000000000000000000000000000000000000000000000000000000000000000000000000000000000000000000000000000000000000000000000000000000000000000000000000000000000000000000000000000000000000000000000000000000000000000000000000000000000000000000000000000000000000000000000000000000000000000000000000000000000000000000000000000000000000000000000000000000000000000000000000000000000000000000000000000000000000000000000000000000000000000000000000000000000000000000000000000000000000000000000000000000000000000000000000000000000000000000000000000000000000000000000000000000000000000000000000000000000000000000000000000000000000000000000000000000000000000000000000000000000000000000000000000000000000000000000000000000000000000000000000000000000000000000000000000000000000000000000000000000000000000000000000000000000000000000000000000000000000000000000000000000000000000000000000000000000000000000000000000000000000000000000000000000000000000000000000000000000000000000000000000000000000000000000000000000000000000000000000000000000000000000000000000000000000000000000000000000000000000000000000000000000000000000000000000000000000000000000000000000000000000000000000000000000000000000000000000000000000000000000000000000000000000000000000000000000000000000000000000000000000000000000000000000000000000000000000000000000000000000000000000000000000000000000000000000000000000000000000000000000, by decide⟩, ⟨0, 1, by decide⟩, ⟨15, 1, by decide⟩, ⟨0, 1, by decide⟩, ⟨0, 1000000000000000000000000000000000000000000000000000000000000000000000000000000000000000000000000000000000000000000000000000000000000000, by decide⟩, ⟨0, 1000000000000000000000000000000000000000000000000000000000000000000000000000000000000000000000000000000000000000000000000000000000000000, by decide⟩, false, 0, 45⟩,
   [], [⟨⟨600, 1, by decide⟩, ⟨86572526925010606646537780761718750, 142108547152020037174224853515625, by decide⟩, ⟨40, 1, by decide⟩, ⟨0, 1, by decide⟩, ⟨1, 5, by decide⟩, ⟨0, 1, by decide⟩⟩], [], [], [], 0, 1, true, true⟩

/-- Scenario bullet for C7: arrives at `(600, 300)` this tick. -/
def bC7 : Bullet := mkBullet (Qv.ofInt 594) (Qv.ofInt 300) (Qv.ofInt 6) q0

/-- Scenario asteroid for C7: will sit at `(600, 300.2)` after its move,
0.2 from the bullet. -/
def astC7 : Asteroid :=
  ⟨Qv.ofInt 600, Qv.ofInt 300, Qv.ofInt 40, q0, ⟨1, 5, by norm_num⟩, q0⟩

/-- Scenario state for C7: the game is already over (ship parked at the
world center, far from the asteroid), but a leftover bullet is still in
flight. -/
def gC7 : GameState :=
  ⟨⟨Qv.ofInt 600, Qv.ofInt 600, q0, SHIP_R, q0, q0, q0, false, 0, 0⟩,
   [bC7], [astC7], [], [], [], 0, 1, true, true⟩

/-- Scenario bullet for C4: arrives at `(600, 300)` this tick. -/
def bC4 : Bullet := mkBullet (Qv.ofInt 594) (Qv.ofInt 300) (Qv.ofInt 6) q0

/-- Scenario asteroid for C4: radius 40, at `(600, 300.2)` after its
move. -/
def astC4 : Asteroid :=
  ⟨Qv.ofInt 600, Qv.ofInt 300, Qv.ofInt 40, q0, ⟨1, 5, by norm_num⟩, q0⟩

/-- Scenario state for C4 (Scenario A, in the 1200×1200 world): one bullet
reaching the radius-40 asteroid this tick, ship far away. -/
def gC4 : GameState :=
  ⟨⟨Qv.ofInt 600, Qv.ofInt 600, q0, SHIP_R, q0, q0, q0, false, 3, 0⟩,
   [bC4], [astC4], [], [], [], 0, 1, true, false⟩

/-- Scenario environment for C6: `dt = 50/3` ms (one 60 fps frame), which
moves the scenario saucer exactly 1.5 world units. -/
def envC6 : Env :=
  ⟨Qv.ofInt 1, q0, ⟨50, 3, by norm_num⟩,
   fun _ => ⟨q0, q0, q0⟩,
   fun _ => ⟨q0, q0, q0, q0⟩,
   fun _ => ⟨Qv.ofInt 1000, q0, q0⟩,
   fun _ => ⟨q0, q0, Qv.ofInt 30⟩,
   none⟩

/-- Scenario bullet for C6: arrives at `(600, 600)` this tick. -/
def bC6 : Bullet := mkBullet (Qv.ofInt 594) (Qv.ofInt 600) (Qv.ofInt 6) q0

/-- Scenario asteroid for C6: at `(600, 600)` after its move — on the
bullet. -/
def astC6 : Asteroid :=
  ⟨Qv.ofInt 600, ⟨2999, 5, by norm_num⟩, Qv.ofInt 40, q0,
   ⟨1, 5, by norm_num⟩, q0⟩

/-- Scenario saucer for C6: at `(600, 600)` after its move — on the same
bullet. -/
def scC6 : Saucer :=
  ⟨⟨1197, 2, by norm_num⟩, Qv.ofInt 600, ⟨3, 2, by norm_num⟩,
   Qv.ofInt 18, Qv.ofInt 1000, -1, true⟩

/-- Scenario state for C6: one bullet that ends the tick overlapping BOTH
the asteroid and the saucer; the ship is parked far away. -/
def gC6 : GameState :=
  ⟨⟨Qv.ofInt 100, Qv.ofInt 600, q0, SHIP_R, q0, q0, q0, false, 3, 0⟩,
   [bC6], [astC6], [], [scC6], [], 0, 1, true, false⟩

/-- Scenario state for C8: the asteroid collection has just been cleared
(wave 1 still current). -/
def gC8 : GameState :=
  ⟨⟨Qv.ofInt 600, Qv.ofInt 600, q0, SHIP_R, q0, q0, q0, false, 3, 0⟩,
   [], [], [], [], [], 700, 1, true, false⟩

/-- Scenario ship for C9 (Scenario B): at `x = 10`, drifting left with
velocity `(-5, 0)`, not thrusting. -/
def shipB : Ship :=
  ⟨Qv.ofInt 10, Qv.ofInt 300, q0, SHIP_R, q0, Qv.ofInt (-5), q0,
   false, 3, 0⟩

/-- Radius window for the C10 invariant: `10 < r ≤ 44`. -/
def radOK (a : Asteroid) : Prop := 10 < a.r.toRat ∧ a.r.toRat ≤ 44

namespace Qv

theorem den_ne (a : Qv) : ((a.den : ℚ)) ≠ 0 := by
  have := a.pos
  exact_mod_cast ne_of_gt (show (0:ℤ) < a.den from this)

theorem den_pos_rat (a : Qv) : (0:ℚ) < (a.den : ℚ) := by
  exact_mod_cast a.pos

theorem toRat_ofInt (n : ℤ) : (ofInt n).toRat = (n : ℚ) := by
  simp [ofInt, toRat]

theorem toRat_add (a b : Qv) : (a.add b).toRat = a.toRat + b.toRat := by
  unfold add toRat
  rw [div_add_div _ _ (den_ne a) (den_ne b)]
  push_cast
  ring_nf

theorem toRat_sub (a b : Qv) : (a.sub b).toRat = a.toRat - b.toRat := by
  unfold sub toRat
  rw [div_sub_div _ _ (den_ne a) (den_ne b)]
  push_cast
  ring_nf

theorem toRat_mul (a b : Qv) : (a.mul b).toRat = a.toRat * b.toRat := by
  unfold mul toRat
  rw [div_mul_div_comm]
  push_cast
  ring_nf

theorem toRat_neg (a : Qv) : a.neg.toRat = -a.toRat := by
  unfold neg toRat
  push_cast
  ring_nf

theorem toRat_abs (a : Qv) : a.abs.toRat = |a.toRat| := by
  unfold abs toRat
  rw [abs_div]
  have h : |(a.den : ℚ)| = (a.den : ℚ) := abs_of_pos (den_pos_rat a)
  rw [h]
  push_cast
  ring_nf

theorem toRat_divPos (a b : Qv) (h : 0 < b.num) :
    (a.divPos b h).toRat = a.toRat / b.toRat := by
  unfold divPos toRat
  have hb : ((b.num : ℚ)) ≠ 0 := by exact_mod_cast ne_of_gt h
  have ha := den_ne a
  have hbd := den_ne b
  push_cast
  field_simp

theorem lt_iff (a b : Qv) : a.lt b ↔ a.toRat < b.toRat := by
  unfold lt toRat
  rw [div_lt_div_iff (den_pos_rat a) (den_pos_rat b)]
  constructor
  · intro h; exact_mod_cast h
  · intro h; exact_mod_cast h

theorem le_iff (a b : Qv) : a.le b ↔ a.toRat ≤ b.toRat := by
  unfold le toRat
  rw [div_le_div_iff (den_pos_rat a) (den_pos_rat b)]
  constructor
  · intro h; exact_mod_cast h
  · intro h; exact_mod_cast h

theorem eqv_iff (a b : Qv) : a.eqv b ↔ a.toRat = b.toRat := by
  unfold eqv toRat
  rw [div_eq_div_iff (den_ne a) (den_ne b)]
  constructor
  · intro h; exact_mod_cast h
  · intro h; exact_mod_cast h

end Qv

theorem Qv.wrapMod_mem (x : Qv) (m : ℤ) (hm : 0 < m)
    (h : -(m : ℚ) ≤ x.toRat) :
    0 ≤ (x.wrapMod m hm).toRat ∧ (x.wrapMod m hm).toRat < (m : ℚ) := by
  have hden : (0:ℚ) < (x.den : ℚ) := den_pos_rat x
  -- the shifted numerator is nonnegative
  have han : 0 ≤ x.num + m * x.den := by
    have h2 : -(m : ℚ) * (x.den : ℚ) ≤ (x.num : ℚ) := by
      calc -(m : ℚ) * (x.den : ℚ)
          ≤ x.toRat * (x.den : ℚ) := by
            exact mul_le_mul_of_nonneg_right h (le_of_lt hden)
        _ = (x.num : ℚ) := by
            unfold toRat
            field_simp
    have h3 : (0:ℚ) ≤ (x.num : ℚ) + (m : ℚ) * (x.den : ℚ) := by linarith
    exact_mod_cast h3
  have hmd : 0 < m * x.den := mul_pos hm x.pos
  -- truncating division agrees with Euclidean division on nonnegative input
  have htdiv : Int.tdiv (x.num + m * x.den) (m * x.den)
      = (x.num + m * x.den) / (m * x.den) :=
    Int.tdiv_eq_ediv han (le_of_lt hmd)
  have hrem : x.num + m * x.den
      - m * ((x.num + m * x.den) / (m * x.den)) * x.den
      = (x.num + m * x.den) % (m * x.den) := by
    rw [Int.emod_def]
    ring
  have hlo : 0 ≤ (x.num + m * x.den) % (m * x.den) :=
    Int.emod_nonneg _ (ne_of_gt hmd)
  have hhi : (x.num + m * x.den) % (m * x.den) < m * x.den :=
    Int.emod_lt_of_pos _ hmd
  constructor
  · show (0:ℚ) ≤ ((x.num + m * x.den - m * _ * x.den : ℤ) : ℚ) / (x.den : ℚ)
    rw [htdiv, hrem]
    exact div_nonneg (by exact_mod_cast hlo) (le_of_lt hden)
  · show ((x.num + m * x.den - m * _ * x.den : ℤ) : ℚ) / (x.den : ℚ) < m
    rw [htdiv, hrem]
    rw [div_lt_iff hden]
    exact_mod_cast hhi

theorem Ship.update_lives (cA sA : Qv) (s : Ship) :
    (Ship.update cA sA s).lives = s.lives := rfl

theorem Ship.update_invuln (cA sA : Qv) (s : Ship) :
    (Ship.update cA sA s).invuln
      = if 0 < s.invuln then s.invuln - 1 else s.invuln := rfl

theorem Ship.update_vx (cA sA : Qv) (s : Ship) :
    (Ship.update cA sA s).vx
      = (if s.thrusting then s.vx.add (THRUST_ACCEL.mul cA) else s.vx).mul
          DRAG := rfl

theorem Ship.update_vy (cA sA : Qv) (s : Ship) :
    (Ship.update cA sA s).vy
      = (if s.thrusting then s.vy.add (THRUST_ACCEL.mul sA) else s.vy).mul
          DRAG := rfl

theorem ship_update_x (cA sA : Qv) (s : Ship) :
    (Ship.update cA sA s).x
      = wrapX (s.x.add ((Ship.update cA sA s).vx)) := rfl

theorem ship_update_y (cA sA : Qv) (s : Ship) :
    (Ship.update cA sA s).y
      = wrapY (s.y.add ((Ship.update cA sA s).vy)) := rfl

theorem removeLast?_mem {α : Type} (p : α → Bool) :
    ∀ (l : List α) (a : α) (rest : List α),
      removeLast? p l = some (a, rest) →
      a ∈ l ∧ p a = true ∧ ∀ x ∈ rest, x ∈ l
  | [], a, rest, h => by simp [removeLast?] at h
  | b :: l, a, rest, h => by
    unfold removeLast? at h
    cases hrec : removeLast? p l with
    | some pr =>
      rw [hrec] at h
      obtain ⟨hit, rest'⟩ := pr
      simp only [Option.some.injEq, Prod.mk.injEq] at h
      obtain ⟨ha, hrest⟩ := h
      obtain ⟨hmem, hp, hsub⟩ := removeLast?_mem p l hit rest' hrec
      subst ha
      refine ⟨List.mem_cons_of_mem _ hmem, hp, ?_⟩
      intro x hx
      rw [← hrest] at hx
      rcases List.mem_cons.mp hx with h1 | h2
      · exact h1 ▸ List.mem_cons_self _ _
      · exact List.mem_cons_of_mem _ (hsub x h2)
    | none =>
      rw [hrec] at h
      by_cases hp : p b
      · rw [if_pos hp] at h
        simp only [Option.some.injEq, Prod.mk.injEq] at h
        obtain ⟨ha, hrest⟩ := h
        subst ha
        exact ⟨List.mem_cons_self _ _, hp, fun x hx =>
          List.mem_cons_of_mem _ (hrest ▸ hx)⟩
      · rw [if_neg hp] at h
        exact absurd h (by simp)

theorem sbShipPass_of_invuln_pos (env : Env) (st : HitSt)
    (h : 0 < st.ship.invuln) : sbShipPass env st = st := by
  unfold sbShipPass
  rw [if_neg (by omega)]

theorem astShipPass_of_invuln_pos (env : Env) (asts : List Asteroid)
    (st : HitSt) (h : 0 < st.ship.invuln) : astShipPass env asts st = st := by
  unfold astShipPass
  rw [if_neg (by omega)]

theorem sbShipPass_cases (env : Env) (st : HitSt) :
    sbShipPass env st = st ∨
      ((sbShipPass env st).ship.lives = st.ship.lives - 1 ∧
       (sbShipPass env st).ship.invuln = 240 ∧
       (sbShipPass env st).gameOver
         = (st.gameOver || decide (st.ship.lives - 1 ≤ 0))) := by
  unfold sbShipPass
  by_cases h : st.ship.invuln ≤ 0
  · rw [if_pos h]
    cases hrl : removeLast?
        (fun sb => distLtB sb.x sb.y st.ship.x st.ship.y st.ship.r)
        st.saucerBullets with
    | some pr => right; exact ⟨rfl, rfl, rfl⟩
    | none => left; rfl
  · rw [if_neg h]; left; rfl

theorem astShipPass_cases (env : Env) (asts : List Asteroid) (st : HitSt) :
    astShipPass env asts st = st ∨
      ((astShipPass env asts st).ship.lives = st.ship.lives - 1 ∧
       (astShipPass env asts st).ship.invuln = 90 ∧
       (astShipPass env asts st).gameOver
         = (st.gameOver || decide (st.ship.lives - 1 ≤ 0))) := by
  unfold astShipPass
  by_cases h : st.ship.invuln ≤ 0
  · rw [if_pos h]
    cases hrl : removeLast?
        (fun a => distLtB st.ship.x st.ship.y a.x a.y (st.ship.r.add a.r))
        asts with
    | some pr => right; exact ⟨rfl, rfl, rfl⟩
    | none => left; rfl
  · rw [if_neg h]; left; rfl

theorem sbShipPass_gameOver_mono (env : Env) (st : HitSt)
    (h : st.gameOver = true) : (sbShipPass env st).gameOver = true := by
  rcases sbShipPass_cases env st with he | ⟨_, _, hg⟩
  · rw [he]; exact h
  · rw [hg, h, Bool.true_or]

theorem astShipPass_gameOver_mono (env : Env) (asts : List Asteroid)
    (st : HitSt) (h : st.gameOver = true) :
    (astShipPass env asts st).gameOver = true := by
  rcases astShipPass_cases env asts st with he | ⟨_, _, hg⟩
  · rw [he]; exact h
  · rw [hg, h, Bool.true_or]

theorem tick_not_started (env : Env) (g : GameState)
    (hs : g.started = false) : tick env g = g := by
  unfold tick
  rw [if_pos hs]

theorem tick_ship_lives_of_invuln (env : Env) (g : GameState)
    (h2 : 2 ≤ g.ship.invuln) :
    (tick env g).ship.lives = g.ship.lives := by
  by_cases hs : g.started = false
  · rw [tick_not_started env g hs]
  · unfold tick
    rw [if_neg hs]
    simp only []
    have hinv1 : 0 < (Ship.update env.cosA env.sinA g.ship).invuln := by
      rw [Ship.update_invuln]
      split <;> omega
    rw [sbShipPass_of_invuln_pos env _ hinv1,
      astShipPass_of_invuln_pos env _ _ hinv1]
    split <;> exact Ship.update_lives env.cosA env.sinA g.ship

theorem tick_gameOver_mono (env : Env) (g : GameState)
    (h : g.gameOver = true) : (tick env g).gameOver = true := by
  by_cases hs : g.started = false
  · rw [tick_not_started env g hs]; exact h
  · unfold tick
    rw [if_neg hs]
    simp only []
    exact astShipPass_gameOver_mono env _ _
      (sbShipPass_gameOver_mono env _ h)

theorem passes_invuln_cases (env : Env) (asts : List Asteroid) (st : HitSt) :
    (astShipPass env asts (sbShipPass env st)).ship.invuln
        = st.ship.invuln ∨
      (astShipPass env asts (sbShipPass env st)).ship.invuln = 240 ∨
      (astShipPass env asts (sbShipPass env st)).ship.invuln = 90 := by
  rcases astShipPass_cases env asts (sbShipPass env st) with ha | ⟨_, h90, _⟩
  · rw [ha]
    rcases sbShipPass_cases env st with hb | ⟨_, h240, _⟩
    · rw [hb]; left; rfl
    · right; left; exact h240
  · right; right; exact h90

theorem passes_lives_one (env : Env) (asts : List Asteroid) (st : HitSt)
    (h1 : st.ship.lives = 1) :
    (astShipPass env asts (sbShipPass env st)).ship.lives = 1 ∨
      ((astShipPass env asts (sbShipPass env st)).ship.lives = 0 ∧
       (astShipPass env asts (sbShipPass env st)).gameOver = true) := by
  rcases sbShipPass_cases env st with hb | ⟨hl2, h240, hg2⟩
  · rw [hb]
    rcases astShipPass_cases env asts st with ha | ⟨hl, _, hg⟩
    · rw [ha]; left; exact h1
    · right
      refine ⟨by rw [hl, h1]; norm_num, ?_⟩
      rw [hg, h1]
      simp
  · have hskip :
        astShipPass env asts (sbShipPass env st) = sbShipPass env st :=
      astShipPass_of_invuln_pos env asts _ (by rw [h240]; norm_num)
    rw [hskip]
    right
    refine ⟨by rw [hl2, h1]; norm_num, ?_⟩
    rw [hg2, h1]
    simp

theorem tick_lives_one (env : Env) (g : GameState)
    (hl : g.ship.lives = 1) :
    (tick env g).ship.lives = 1 ∨
      ((tick env g).ship.lives = 0 ∧ (tick env g).gameOver = true) := by
  by_cases hs : g.started = false
  · rw [tick_not_started env g hs]; left; exact hl
  · unfold tick
    rw [if_neg hs]
    simp only []
    split <;> exact passes_lives_one env _ _ hl

theorem wrapX_range (x : Qv) (h : -(1200:ℚ) ≤ x.toRat) :
    0 ≤ (wrapX x).toRat ∧ (wrapX x).toRat < 1200 := by
  have hm : (0:ℤ) < VW := by norm_num [VW]
  have := Qv.wrapMod_mem x VW hm (by norm_num [VW]; exact h)
  unfold wrapX
  constructor
  · exact this.1
  · have h2 := this.2
    norm_num [VW] at h2
    exact h2

theorem wrapY_range (y : Qv) (h : -(1200:ℚ) ≤ y.toRat) :
    0 ≤ (wrapY y).toRat ∧ (wrapY y).toRat < 1200 := by
  have hm : (0:ℤ) < VH := by norm_num [VH]
  have := Qv.wrapMod_mem y VH hm (by norm_num [VH]; exact h)
  unfold wrapY
  constructor
  · exact this.1
  · have h2 := this.2
    norm_num [VH] at h2
    exact h2

theorem bullet_update_x (b : Bullet) :
    (Bullet.update b).x = wrapX (b.x.add b.dx) := rfl

theorem bullet_update_y (b : Bullet) :
    (Bullet.update b).y = wrapY (b.y.add b.dy) := rfl

theorem asteroid_update_x (a : Asteroid) :
    (Asteroid.update a).x = wrapX (a.x.add a.dx) := rfl

theorem asteroid_update_y (a : Asteroid) :
    (Asteroid.update a).y = wrapY (a.y.add a.dy) := rfl

theorem sb_update_x (sb : SaucerBullet) :
    (SaucerBullet.update sb).x = wrapX (sb.x.add sb.dx) := rfl

theorem sb_update_y (sb : SaucerBullet) :
    (SaucerBullet.update sb).y = wrapY (sb.y.add sb.dy) := rfl

theorem DRAG_toRat : DRAG.toRat = 199/200 := by
  norm_num [DRAG, Qv.toRat]

theorem THRUST_ACCEL_toRat : THRUST_ACCEL.toRat = 2/25 := by
  norm_num [THRUST_ACCEL, Qv.toRat]

/-- The wrapped kinds stay in range: the updated ship `x`-coordinate, for
any in-range pre-state, bounded velocity and a genuine cosine value. -/
theorem Ship.update_x_range (cA sA : Qv) (s : Ship)
    (hx : 0 ≤ s.x.toRat) (hv : |s.vx.toRat| ≤ 1000) (hc : |cA.toRat| ≤ 1) :
    0 ≤ (Ship.update cA sA s).x.toRat ∧
      (Ship.update cA sA s).x.toRat < 1200 := by
  rw [ship_update_x]
  apply wrapX_range
  rw [Qv.toRat_add, Ship.update_vx]
  have hd : ((if s.thrusting then s.vx.add (THRUST_ACCEL.mul cA)
      else s.vx).mul DRAG).toRat
      = (if s.thrusting then s.vx.add (THRUST_ACCEL.mul cA)
          else s.vx).toRat * (199/200) := by
    rw [Qv.toRat_mul, DRAG_toRat]
  rw [hd]
  rcases abs_le.mp hv with ⟨hv1, hv2⟩
  rcases abs_le.mp hc with ⟨hc1, hc2⟩
  by_cases ht : s.thrusting
  · rw [if_pos ht, Qv.toRat_add, Qv.toRat_mul, THRUST_ACCEL_toRat]
    nlinarith
  · rw [if_neg ht]
    nlinarith

theorem Ship.update_y_range (cA sA : Qv) (s : Ship)
    (hy : 0 ≤ s.y.toRat) (hv : |s.vy.toRat| ≤ 1000) (hc : |sA.toRat| ≤ 1) :
    0 ≤ (Ship.update cA sA s).y.toRat ∧
      (Ship.update cA sA s).y.toRat < 1200 := by
  rw [ship_update_y]
  apply wrapY_range
  rw [Qv.toRat_add, Ship.update_vy]
  have hd : ((if s.thrusting then s.vy.add (THRUST_ACCEL.mul sA)
      else s.vy).mul DRAG).toRat
      = (if s.thrusting then s.vy.add (THRUST_ACCEL.mul sA)
          else s.vy).toRat * (199/200) := by
    rw [Qv.toRat_mul, DRAG_toRat]
  rw [hd]
  rcases abs_le.mp hv with ⟨hv1, hv2⟩
  rcases abs_le.mp hc with ⟨hc1, hc2⟩
  by_cases ht : s.thrusting
  · rw [if_pos ht, Qv.toRat_add, Qv.toRat_mul, THRUST_ACCEL_toRat]
    nlinarith
  · rw [if_neg ht]
    nlinarith

/-- Claim C1 is false as stated: particles are one of the entity kinds, yet
`Particle.update` does not wrap — the particle `pC1` starts in range
(`x = 1199`, velocity `1.4` inside the constructor range) and holds
`x = 1200.4 ≥ W` after its per-tick update. -/
theorem C1_counterexample :
    0 ≤ pC1.x.toRat ∧ pC1.x.toRat < 1200 ∧ |pC1.vx.toRat| ≤ 3/2 ∧
      (1200:ℚ) ≤ (Particle.update pC1).x.toRat := by
  refine ⟨?_, ?_, ?_, ?_⟩
  · norm_num [pC1, Qv.toRat, Qv.ofInt]
  · norm_num [pC1, Qv.toRat, Qv.ofInt]
  · have hval : pC1.vx.toRat = 7/5 := by
      norm_num [pC1, Qv.toRat]
    rw [hval, abs_of_pos (by norm_num : (0:ℚ) < 7/5)]
    norm_num
  · have h4 : (Qv.ofInt 1200).le (Particle.update pC1).x := by decide
    have := (Qv.le_iff _ _).mp h4
    rw [Qv.toRat_ofInt] at this
    exact_mod_cast this

/-- Claim C1 (amended): after the per-tick update, the ship, bullets,
saucer-bullets and asteroids always hold coordinates in `[0, W) × [0, H)`
(for any in-range pre-state and per-tick displacement of magnitude below
the world extent, which all constructors guarantee); particles and saucers
are NOT wrapped and may hold out-of-range coordinates. -/
theorem C1_wraparound_amended :
    (∀ b : Bullet, -(1200:ℚ) ≤ b.x.toRat + b.dx.toRat →
       0 ≤ (Bullet.update b).x.toRat ∧ (Bullet.update b).x.toRat < 1200) ∧
    (∀ b : Bullet, -(1200:ℚ) ≤ b.y.toRat + b.dy.toRat →
       0 ≤ (Bullet.update b).y.toRat ∧ (Bullet.update b).y.toRat < 1200) ∧
    (∀ a : Asteroid, -(1200:ℚ) ≤ a.x.toRat + a.dx.toRat →
       0 ≤ (Asteroid.update a).x.toRat ∧
         (Asteroid.update a).x.toRat < 1200) ∧
    (∀ a : Asteroid, -(1200:ℚ) ≤ a.y.toRat + a.dy.toRat →
       0 ≤ (Asteroid.update a).y.toRat ∧
         (Asteroid.update a).y.toRat < 1200) ∧
    (∀ sb : SaucerBullet, -(1200:ℚ) ≤ sb.x.toRat + sb.dx.toRat →
       0 ≤ (SaucerBullet.update sb).x.toRat ∧
         (SaucerBullet.update sb).x.toRat < 1200) ∧
    (∀ sb : SaucerBullet, -(1200:ℚ) ≤ sb.y.toRat + sb.dy.toRat →
       0 ≤ (SaucerBullet.update sb).y.toRat ∧
         (SaucerBullet.update sb).y.toRat < 1200) ∧
    (∀ (cA sA : Qv) (s : Ship), 0 ≤ s.x.toRat → |s.vx.toRat| ≤ 1000 →
       |cA.toRat| ≤ 1 →
       0 ≤ (Ship.update cA sA s).x.toRat ∧
         (Ship.update cA sA s).x.toRat < 1200) ∧
    (∀ (cA sA : Qv) (s : Ship), 0 ≤ s.y.toRat → |s.vy.toRat| ≤ 1000 →
       |sA.toRat| ≤ 1 →
       0 ≤ (Ship.update cA sA s).y.toRat ∧
         (Ship.update cA sA s).y.toRat < 1200) := by
  refine ⟨?_, ?_, ?_, ?_, ?_, ?_, ?_, ?_⟩
  · intro b h
    rw [bullet_update_x]
    exact wrapX_range _ (by rw [Qv.toRat_add]; exact h)
  · intro b h
    rw [bullet_update_y]
    exact wrapY_range _ (by rw [Qv.toRat_add]; exact h)
  · intro a h
    rw [asteroid_update_x]
    exact wrapX_range _ (by rw [Qv.toRat_add]; exact h)
  · intro a h
    rw [asteroid_update_y]
    exact wrapY_range _ (by rw [Qv.toRat_add]; exact h)
  · intro sb h
    rw [sb_update_x]
    exact wrapX_range _ (by rw [Qv.toRat_add]; exact h)
  · intro sb h
    rw [sb_update_y]
    exact wrapY_range _ (by rw [Qv.toRat_add]; exact h)
  · exact Ship.update_x_range
  · exact Ship.update_y_range

/-- Concrete instance of `C1_wraparound_amended`: the witness bullet and
ship remain in range after one update. -/
theorem C1_wraparound_amended_witness :
    (0 ≤ (Bullet.update bC1).x.toRat ∧ (Bullet.update bC1).x.toRat < 1200) ∧
    (0 ≤ (Ship.update (Qv.ofInt 1) q0 sC1).x.toRat ∧
      (Ship.update (Qv.ofInt 1) q0 sC1).x.toRat < 1200) :=
  ⟨C1_wraparound_amended.1 bC1
     (by norm_num [bC1, mkBullet, Qv.toRat, Qv.ofInt]),
   C1_wraparound_amended.2.2.2.2.2.2.1 (Qv.ofInt 1) q0 sC1
     (by norm_num [sC1, Qv.toRat, Qv.ofInt])
     (by norm_num [sC1, Qv.toRat, Qv.ofInt])
     (by norm_num [Qv.toRat, Qv.ofInt])⟩

theorem overlay_invuln (b : Bool) (s : Ship) :
    (if b then { s with thrusting := false } else s).invuln = s.invuln := by
  cases b <;> rfl

theorem overlay_lives (b : Bool) (s : Ship) :
    (if b then { s with thrusting := false } else s).lives = s.lives := by
  cases b <;> rfl

theorem tick_invuln_cases (env : Env) (g : GameState) :
    (tick env g).ship.invuln ≤ g.ship.invuln ∨
      (tick env g).ship.invuln = 240 ∨ (tick env g).ship.invuln = 90 := by
  by_cases hs : g.started = false
  · rw [tick_not_started env g hs]; left; omega
  · unfold tick
    rw [if_neg hs]
    simp only []
    rw [overlay_invuln]
    rcases passes_invuln_cases env
        (bulletPass env ((g.bullets.map Bullet.update).filter Bullet.alive)
          ⟨g.asteroids.map Asteroid.update,
           (saucersUpdate env g.saucers 0).1, g.score, g.particles,
           (saucersUpdate env g.saucers 0).2.2⟩).2.asteroids
        ⟨Ship.update env.cosA env.sinA g.ship,
         ((g.saucerBullets ++ (saucersUpdate env g.saucers 0).2.1).map
            SaucerBullet.update).filter SaucerBullet.alive,
         g.gameOver,
         (bulletPass env ((g.bullets.map Bullet.update).filter Bullet.alive)
            ⟨g.asteroids.map Asteroid.update,
             (saucersUpdate env g.saucers 0).1, g.score, g.particles,
             (saucersUpdate env g.saucers 0).2.2⟩).2.particles,
         (bulletPass env ((g.bullets.map Bullet.update).filter Bullet.alive)
            ⟨g.asteroids.map Asteroid.update,
             (saucersUpdate env g.saucers 0).1, g.score, g.particles,
             (saucersUpdate env g.saucers 0).2.2⟩).2.rng⟩
      with h | h | h
    · left
      rw [h]
      show (Ship.update env.cosA env.sinA g.ship).invuln ≤ g.ship.invuln
      rw [Ship.update_invuln]
      split <;> omega
    · right; left; exact h
    · right; right; exact h

/-- Claim C2 is false as stated: the ship enters the tick with
invulnerability `1 > 0`, but `Ship.update` decrements the counter BEFORE
the collision checks, so the saucer bullet hits and the ship loses a life
in that very tick. -/
theorem C2_counterexample :
    0 < gC2.ship.invuln ∧ gC2.ship.lives = 3 ∧
      (tick envT gC2).ship.lives = 2 := by
  refine ⟨by decide, by decide, by decide⟩

/-- Claim C2 (amended): the invulnerability counter is decremented by the
per-tick ship update before any damage check, so the correct entry
condition is `invuln ≥ 2` (equivalently, still positive after the
decrement): such a ship loses 0 lives that tick no matter how many hazards
overlap it; and the counter only decreases except when a damage event sets
it (to 240 for a saucer-bullet hit, 90 for an asteroid hit). -/
theorem C2_damage_idempotence_amended :
    (∀ (env : Env) (g : GameState), 2 ≤ g.ship.invuln →
       (tick env g).ship.lives = g.ship.lives) ∧
    (∀ (env : Env) (g : GameState),
       (tick env g).ship.invuln ≤ g.ship.invuln ∨
         (tick env g).ship.invuln = 240 ∨
         (tick env g).ship.invuln = 90) :=
  ⟨tick_ship_lives_of_invuln, tick_invuln_cases⟩

/-- Concrete instance of `C2_damage_idempotence_amended`: with
`invuln = 2` the same overlapping saucer bullet costs no life. -/
theorem C2_damage_idempotence_amended_witness :
    (tick envT gC2w).ship.lives = gC2w.ship.lives :=
  C2_damage_idempotence_amended.1 envT gC2w (by decide)

set_option maxRecDepth 40000 in
/-- Claim C3 is false as stated: lives are not clamped non-negative.  From
`gC3` (one life, invulnerability expired, an asteroid drifting through the
center), tick 1 costs the last life and sets GAME_OVER — but the loop keeps
running damage checks, and on tick 91, when the 90-tick invulnerability
window has elapsed and the asteroid still overlaps the respawned ship, the
ship is hit again: lives = -1. -/
theorem C3_counterexample :
    gC3.ship.lives = 1 ∧ gC3.gameOver = false ∧
      (Nat.iterate (tick envT) 91 gC3).ship.lives = -1 := by
  refine ⟨by decide, by decide, ?_⟩
  have h46 : Nat.iterate (tick envT) 46 gC3 = gC3mid := by decide
  have h45 : (Nat.iterate (tick envT) 45 gC3mid).ship.lives = -1 := by decide
  have h91 : (91 : ℕ) = 45 + 46 := by norm_num
  rw [h91, Function.iterate_add_apply, h46]
  exact h45

/-- Claim C3 (amended): a damage event that reduces lives from 1 to 0 does
set GAME_OVER in that same tick, and GAME_OVER is never unset by a tick
(only the restart touch handler clears it); a single tick can cost at most
one life from lives = 1, so the 1→0 transition itself is deterministic.
But lives are NOT clamped non-negative: entity updates and damage checks
keep running while GAME_OVER is set, so once the post-death
invulnerability expires, further hits drive lives below zero. -/
theorem C3_game_over_amended :
    (∀ (env : Env) (g : GameState), g.ship.lives = 1 →
       (tick env g).ship.lives = 1 ∨
         ((tick env g).ship.lives = 0 ∧ (tick env g).gameOver = true)) ∧
    (∀ (env : Env) (g : GameState), g.gameOver = true →
       (tick env g).gameOver = true) :=
  ⟨tick_lives_one, tick_gameOver_mono⟩

/-- Concrete instance of `C3_game_over_amended` at `gC3` (where the hit
does land): the tick ends with lives 0 and GAME_OVER, never negative. -/
theorem C3_game_over_amended_witness :
    ((tick envT gC3).ship.lives = 1 ∨
      ((tick envT gC3).ship.lives = 0 ∧ (tick envT gC3).gameOver = true)) ∧
    (tick envT { gC3 with gameOver := true }).gameOver = true :=
  ⟨C3_game_over_amended.1 envT gC3 (by decide),
   C3_game_over_amended.2 envT { gC3 with gameOver := true } (by decide)⟩

theorem tick_thrusting_of_gameOver (env : Env) (g : GameState)
    (hst : g.started = true) (hgo : g.gameOver = true) :
    (tick env g).ship.thrusting = false := by
  have hs : ¬ g.started = false := by rw [hst]; simp
  unfold tick
  rw [if_neg hs]
  simp only []
  split
  · rfl
  · rename_i hq
    exact absurd
      (astShipPass_gameOver_mono env _ _
        (sbShipPass_gameOver_mono env _ hgo)) hq

/-- Claim C7 is false as stated: ticks taken while the phase is GAME_OVER
do NOT halt entity updates or scoring — in `gC7` the leftover bullet still
flies, still hits the asteroid, and the score changes from 0 to 100 during
GAME_OVER. -/
theorem C7_counterexample :
    gC7.gameOver = true ∧ gC7.score = 0 ∧ (tick envT gC7).score = 100 ∧
      (tick envT gC7).gameOver = true := by
  refine ⟨by decide, by decide, by decide, by decide⟩

/-- Claim C7 (amended): GAME_OVER is one-way under ticks — no tick ever
clears the flag (only the restart touch handler does, outside the loop) —
and each GAME_OVER tick forces the ship's thrust flag off.  But simulation
ticks do NOT halt entity updates or damage/scoring while GAME_OVER: score
and lives can still change. -/
theorem C7_game_over_oneway_amended :
    (∀ (env : Env) (g : GameState), g.gameOver = true →
       (tick env g).gameOver = true) ∧
    (∀ (env : Env) (g : GameState), g.started = true → g.gameOver = true →
       (tick env g).ship.thrusting = false) :=
  ⟨tick_gameOver_mono, tick_thrusting_of_gameOver⟩

/-- Concrete instance of `C7_game_over_oneway_amended` at `gC7`. -/
theorem C7_game_over_oneway_amended_witness :
    (tick envT gC7).gameOver = true ∧
      (tick envT gC7).ship.thrusting = false :=
  ⟨C7_game_over_oneway_amended.1 envT gC7 (by decide),
   C7_game_over_oneway_amended.2 envT gC7 (by decide) (by decide)⟩

theorem q20_toRat : q20.toRat = 20 := by
  norm_num [q20, Qv.toRat, Qv.ofInt]

theorem splitChildren_of_big (env : Env) (rng : ℕ) (a : Asteroid)
    (h : 20 < a.r.toRat) :
    splitChildren env rng a
      = [mkAsteroid (a.x.add (Qv.ofInt 4)) (a.y.add (Qv.ofInt 4))
           (Qv.divPos a.r (Qv.ofInt 2) (by norm_num [Qv.ofInt]))
           (env.astDraw rng),
         mkAsteroid (a.x.sub (Qv.ofInt 4)) (a.y.sub (Qv.ofInt 4))
           (Qv.divPos a.r (Qv.ofInt 2) (by norm_num [Qv.ofInt]))
           (env.astDraw (rng + 1))] := by
  unfold splitChildren
  rw [if_pos ((Qv.lt_iff q20 a.r).mpr (by rw [q20_toRat]; exact h))]

theorem splitChildren_of_small (env : Env) (rng : ℕ) (a : Asteroid)
    (h : a.r.toRat ≤ 20) :
    splitChildren env rng a = [] := by
  unfold splitChildren
  rw [if_neg (fun hc => absurd ((Qv.lt_iff q20 a.r).mp hc)
    (by rw [q20_toRat]; exact not_lt.mpr h))]

theorem ofInt2_toRat : (Qv.ofInt 2).toRat = 2 := by
  norm_num [Qv.toRat, Qv.ofInt]

theorem ofInt4_toRat : (Qv.ofInt 4).toRat = 4 := by
  norm_num [Qv.toRat, Qv.ofInt]

/-- Claim C4: a bullet destroying an asteroid awards +100 score and
consumes the bullet; if the radius exceeds the split threshold 20, exactly
two children of half the radius are inserted at `(x±4, y±4)`, otherwise no
children are inserted — and concretely (Scenario A) a bullet hitting a
radius-40 asteroid leaves exactly two radius-20 asteroids and adds 100 to
the score. -/
theorem C4_split_conservation :
    (∀ (env : Env) (b : Bullet) (st : PassSt) (a : Asteroid)
       (rest : List Asteroid),
       removeLast? (fun a2 => distLtB b.x b.y a2.x a2.y a2.r) st.asteroids
         = some (a, rest) →
       (bulletStep env b st).2.score = st.score + 100 ∧
       (bulletStep env b st).1 = false ∧
       (20 < a.r.toRat →
          ∃ c1 c2, (bulletStep env b st).2.asteroids = rest ++ [c1, c2] ∧
            c1.r.toRat = a.r.toRat / 2 ∧ c2.r.toRat = a.r.toRat / 2 ∧
            c1.x.toRat = a.x.toRat + 4 ∧ c1.y.toRat = a.y.toRat + 4 ∧
            c2.x.toRat = a.x.toRat - 4 ∧ c2.y.toRat = a.y.toRat - 4) ∧
       (a.r.toRat ≤ 20 → (bulletStep env b st).2.asteroids = rest)) ∧
    ((tick envT gC4).asteroids.length = 2 ∧
      (∀ c ∈ (tick envT gC4).asteroids, c.r.eqv (Qv.ofInt 20)) ∧
      (tick envT gC4).score = gC4.score + 100 ∧
      (tick envT gC4).bullets = []) := by
  constructor
  · intro env b st a rest h
    unfold bulletStep
    rw [h]
    refine ⟨rfl, rfl, ?_, ?_⟩
    · intro hbig
      refine ⟨mkAsteroid (a.x.add (Qv.ofInt 4)) (a.y.add (Qv.ofInt 4))
          (Qv.divPos a.r (Qv.ofInt 2) (by norm_num [Qv.ofInt]))
          (env.astDraw (st.rng + 10)),
        mkAsteroid (a.x.sub (Qv.ofInt 4)) (a.y.sub (Qv.ofInt 4))
          (Qv.divPos a.r (Qv.ofInt 2) (by norm_num [Qv.ofInt]))
          (env.astDraw (st.rng + 10 + 1)), ?_, ?_, ?_, ?_, ?_, ?_, ?_⟩
      · show rest ++ splitChildren env (st.rng + 10) a = _
        rw [splitChildren_of_big env (st.rng + 10) a hbig]
      · show (Qv.divPos a.r (Qv.ofInt 2)
            (by norm_num [Qv.ofInt])).toRat = _
        rw [Qv.toRat_divPos, ofInt2_toRat]
      · show (Qv.divPos a.r (Qv.ofInt 2)
            (by norm_num [Qv.ofInt])).toRat = _
        rw [Qv.toRat_divPos, ofInt2_toRat]
      · show (a.x.add (Qv.ofInt 4)).toRat = _
        rw [Qv.toRat_add, ofInt4_toRat]
      · show (a.y.add (Qv.ofInt 4)).toRat = _
        rw [Qv.toRat_add, ofInt4_toRat]
      · show (a.x.sub (Qv.ofInt 4)).toRat = _
        rw [Qv.toRat_sub, ofInt4_toRat]
      · show (a.y.sub (Qv.ofInt 4)).toRat = _
        rw [Qv.toRat_sub, ofInt4_toRat]
    · intro hsmall
      show rest ++ splitChildren env (st.rng + 10) a = rest
      rw [splitChildren_of_small env (st.rng + 10) a hsmall,
        List.append_nil]
  · refine ⟨by decide, by decide, by decide, by decide⟩

/-- Concrete instance of the general part of `C4_split_conservation`: the
scenario bullet/asteroid pair, resolved through `bulletStep` directly. -/
theorem C4_split_conservation_witness :
    (bulletStep envT (Bullet.update bC4)
        ⟨[Asteroid.update astC4], [], 0, [], 0⟩).2.score = 0 + 100 :=
  (C4_split_conservation.1 envT (Bullet.update bC4)
    ⟨[Asteroid.update astC4], [], 0, [], 0⟩ (Asteroid.update astC4) []
    (by decide)).1

/-- Claim C6: a bullet consumed by an asteroid hit is never also tested
against saucers that tick (the saucer list and saucer score are untouched
by the asteroid branch), while a bullet that hit no asteroid destroys the
matching saucer for +1000 and is removed — and concretely, a bullet
overlapping both an asteroid and a saucer in the same tick destroys only
the asteroid: the saucer survives and exactly 100 points are scored. -/
theorem C6_bullet_saucer_exclusivity :
    (∀ (env : Env) (b : Bullet) (st : PassSt)
       (pr : Asteroid × List Asteroid),
       removeLast? (fun a => distLtB b.x b.y a.x a.y a.r) st.asteroids
         = some pr →
       (bulletStep env b st).2.saucers = st.saucers ∧
       (bulletStep env b st).2.score = st.score + 100 ∧
       (bulletStep env b st).1 = false) ∧
    (∀ (env : Env) (b : Bullet) (st : PassSt) (sc : Saucer)
       (rest : List Saucer),
       removeLast? (fun a => distLtB b.x b.y a.x a.y a.r) st.asteroids
         = none →
       removeLast? (fun s => distLtB b.x b.y s.x s.y s.r) st.saucers
         = some (sc, rest) →
       (bulletStep env b st).2.saucers = rest ∧
       (bulletStep env b st).2.score = st.score + 1000 ∧
       (bulletStep env b st).1 = false) ∧
    ((tick envC6 gC6).saucers.length = 1 ∧
      (tick envC6 gC6).score = 100 ∧
      (tick envC6 gC6).bullets = [] ∧
      (tick envC6 gC6).asteroids.length = 2) := by
  refine ⟨?_, ?_, by decide, by decide, by decide, by decide⟩
  · intro env b st pr h
    unfold bulletStep
    rw [h]
    exact ⟨rfl, rfl, rfl⟩
  · intro env b st sc rest h1 h2
    unfold bulletStep
    rw [h1, h2]
    exact ⟨rfl, rfl, rfl⟩

/-- Concrete instance of the saucer branch of
`C6_bullet_saucer_exclusivity`: with no asteroid present, the same bullet
destroys the saucer for +1000. -/
theorem C6_bullet_saucer_exclusivity_witness :
    (bulletStep envC6 (Bullet.update bC6)
        ⟨[], [Saucer.update envC6 0 scC6 |>.1], 0, [], 0⟩).2.score
      = 0 + 1000 :=
  (C6_bullet_saucer_exclusivity.2.1 envC6 (Bullet.update bC6)
    ⟨[], [Saucer.update envC6 0 scC6 |>.1], 0, [], 0⟩
    (Saucer.update envC6 0 scC6 |>.1) []
    (by decide) (by decide)).2.1

theorem Bullet.update_dx (b : Bullet) : (Bullet.update b).dx = b.dx := rfl

theorem Bullet.update_dy (b : Bullet) : (Bullet.update b).dy = b.dy := rfl

theorem Bullet.update_maxX (b : Bullet) :
    (Bullet.update b).maxX = b.maxX := rfl

theorem Bullet.update_maxY (b : Bullet) :
    (Bullet.update b).maxY = b.maxY := rfl

theorem bullet_iterate_dx (b : Bullet) :
    ∀ t : ℕ, (Nat.iterate Bullet.update t b).dx = b.dx := by
  intro t
  induction t with
  | zero => rfl
  | succ n ih => rw [Function.iterate_succ_apply', Bullet.update_dx, ih]

theorem bullet_iterate_dy (b : Bullet) :
    ∀ t : ℕ, (Nat.iterate Bullet.update t b).dy = b.dy := by
  intro t
  induction t with
  | zero => rfl
  | succ n ih => rw [Function.iterate_succ_apply', Bullet.update_dy, ih]

theorem bullet_iterate_maxX (b : Bullet) :
    ∀ t : ℕ, (Nat.iterate Bullet.update t b).maxX = b.maxX := by
  intro t
  induction t with
  | zero => rfl
  | succ n ih => rw [Function.iterate_succ_apply', Bullet.update_maxX, ih]

theorem bullet_iterate_maxY (b : Bullet) :
    ∀ t : ℕ, (Nat.iterate Bullet.update t b).maxY = b.maxY := by
  intro t
  induction t with
  | zero => rfl
  | succ n ih => rw [Function.iterate_succ_apply', Bullet.update_maxY, ih]

theorem bullet_iterate_distX (b : Bullet) :
    ∀ t : ℕ, (Nat.iterate Bullet.update t b).distX.toRat
      = b.distX.toRat + t * |b.dx.toRat| := by
  intro t
  induction t with
  | zero => simp
  | succ n ih =>
    rw [Function.iterate_succ_apply']
    show ((Nat.iterate Bullet.update n b).distX.add
      (Nat.iterate Bullet.update n b).dx.abs).toRat = _
    rw [Qv.toRat_add, Qv.toRat_abs, ih, bullet_iterate_dx]
    push_cast
    ring

theorem bullet_iterate_distY (b : Bullet) :
    ∀ t : ℕ, (Nat.iterate Bullet.update t b).distY.toRat
      = b.distY.toRat + t * |b.dy.toRat| := by
  intro t
  induction t with
  | zero => simp
  | succ n ih =>
    rw [Function.iterate_succ_apply']
    show ((Nat.iterate Bullet.update n b).distY.add
      (Nat.iterate Bullet.update n b).dy.abs).toRat = _
    rw [Qv.toRat_add, Qv.toRat_abs, ih, bullet_iterate_dy]
    push_cast
    ring

theorem bullet_alive_iff (b : Bullet) :
    Bullet.alive b = false ↔
      b.maxX.toRat ≤ b.distX.toRat ∨ b.maxY.toRat ≤ b.distY.toRat := by
  unfold Bullet.alive
  rw [Bool.and_eq_false_iff]
  rw [decide_eq_false_iff_not, decide_eq_false_iff_not]
  rw [Qv.lt_iff, Qv.lt_iff, not_lt, not_lt]

theorem mkBullet_maxX_toRat (x y dx dy : Qv) :
    (mkBullet x y dx dy).maxX.toRat = 960 := by
  show (VWq.mul BULLET_X_SCREEN_TRAVEL).toRat = 960
  rw [Qv.toRat_mul]
  norm_num [VWq, VW, BULLET_X_SCREEN_TRAVEL, Qv.toRat, Qv.ofInt]

theorem mkBullet_maxY_toRat (x y dx dy : Qv) :
    (mkBullet x y dx dy).maxY.toRat = 720 := by
  show (VHq.mul BULLET_Y_SCREEN_TRAVEL).toRat = 720
  rw [Qv.toRat_mul]
  norm_num [VHq, VH, BULLET_Y_SCREEN_TRAVEL, Qv.toRat, Qv.ofInt]

theorem mkBullet_distX_toRat (x y dx dy : Qv) :
    (mkBullet x y dx dy).distX.toRat = 0 := by
  norm_num [mkBullet, q0, Qv.toRat, Qv.ofInt]

theorem mkBullet_distY_toRat (x y dx dy : Qv) :
    (mkBullet x y dx dy).distY.toRat = 0 := by
  norm_num [mkBullet, q0, Qv.toRat, Qv.ofInt]

theorem bullet_expires (x y dx dy : Qv)
    (hspeed : dx.toRat ^ 2 + dy.toRat ^ 2 = 36) :
    ∀ t : ℕ, 320 ≤ t →
      Bullet.alive (Nat.iterate Bullet.update t (mkBullet x y dx dy))
        = false := by
  intro t ht
  have hcase : 3 ≤ |dx.toRat| ∨ 3 ≤ |dy.toRat| := by
    by_contra hcon
    push_neg at hcon
    obtain ⟨h1, h2⟩ := hcon
    have ha := abs_nonneg dx.toRat
    have hb := abs_nonneg dy.toRat
    have hx2 : dx.toRat ^ 2 < 9 := by
      have := sq_abs dx.toRat
      nlinarith
    have hy2 : dy.toRat ^ 2 < 9 := by
      have := sq_abs dy.toRat
      nlinarith
    linarith
  have htq : (320:ℚ) ≤ (t:ℚ) := by exact_mod_cast ht
  rw [bullet_alive_iff]
  rcases hcase with h3 | h3
  · left
    rw [bullet_iterate_maxX, bullet_iterate_distX, mkBullet_maxX_toRat,
      mkBullet_distX_toRat]
    show (960:ℚ) ≤ 0 + t * |(mkBullet x y dx dy).dx.toRat|
    show (960:ℚ) ≤ 0 + t * |dx.toRat|
    nlinarith
  · right
    rw [bullet_iterate_maxY, bullet_iterate_distY, mkBullet_maxY_toRat,
      mkBullet_distY_toRat]
    show (720:ℚ) ≤ 0 + t * |(mkBullet x y dx dy).dy.toRat|
    show (720:ℚ) ≤ 0 + t * |dy.toRat|
    nlinarith

theorem SaucerBullet.update_stepDist (sb : SaucerBullet) :
    (SaucerBullet.update sb).stepDist = sb.stepDist := rfl

theorem SaucerBullet.update_maxDist (sb : SaucerBullet) :
    (SaucerBullet.update sb).maxDist = sb.maxDist := rfl

theorem sb_iterate_stepDist (sb : SaucerBullet) :
    ∀ t : ℕ, (Nat.iterate SaucerBullet.update t sb).stepDist
      = sb.stepDist := by
  intro t
  induction t with
  | zero => rfl
  | succ n ih =>
    rw [Function.iterate_succ_apply', SaucerBullet.update_stepDist, ih]

theorem sb_iterate_maxDist (sb : SaucerBullet) :
    ∀ t : ℕ, (Nat.iterate SaucerBullet.update t sb).maxDist
      = sb.maxDist := by
  intro t
  induction t with
  | zero => rfl
  | succ n ih =>
    rw [Function.iterate_succ_apply', SaucerBullet.update_maxDist, ih]

theorem sb_iterate_dist (sb : SaucerBullet) :
    ∀ t : ℕ, (Nat.iterate SaucerBullet.update t sb).dist.toRat
      = sb.dist.toRat + t * sb.stepDist.toRat := by
  intro t
  induction t with
  | zero => simp
  | succ n ih =>
    rw [Function.iterate_succ_apply']
    show ((Nat.iterate SaucerBullet.update n sb).dist.add
      (Nat.iterate SaucerBullet.update n sb).stepDist).toRat = _
    rw [Qv.toRat_add, ih, sb_iterate_stepDist]
    push_cast
    ring

theorem sb_alive_iff (sb : SaucerBullet) :
    SaucerBullet.alive sb = false ↔
      sb.maxDist.toRat ≤ sb.dist.toRat := by
  unfold SaucerBullet.alive
  rw [decide_eq_false_iff_not, Qv.lt_iff, not_lt]

theorem mkSaucerBullet_maxDist_toRat (x y dx dy : Qv) :
    (mkSaucerBullet x y dx dy).maxDist.toRat = 1200 := by
  show ((Qv.qmax VWq VHq).mul BULLET_MAX_SCREEN_TRAVEL).toRat = 1200
  rw [Qv.toRat_mul]
  norm_num [Qv.qmax, Qv.lt, VWq, VHq, VW, VH, BULLET_MAX_SCREEN_TRAVEL,
    Qv.toRat, Qv.ofInt]

theorem sb_expires (x y dx dy : Qv) :
    ∀ t : ℕ, 219 ≤ t →
      SaucerBullet.alive
        (Nat.iterate SaucerBullet.update t (mkSaucerBullet x y dx dy))
        = false := by
  intro t ht
  have htq : (219:ℚ) ≤ (t:ℚ) := by exact_mod_cast ht
  rw [sb_alive_iff, sb_iterate_maxDist, sb_iterate_dist,
    mkSaucerBullet_maxDist_toRat]
  show (1200:ℚ) ≤ (mkSaucerBullet x y dx dy).dist.toRat
    + t * (mkSaucerBullet x y dx dy).stepDist.toRat
  show (1200:ℚ) ≤ q0.toRat + t * (⟨11, 2, by norm_num⟩ : Qv).toRat
  have h0 : q0.toRat = 0 := by norm_num [q0, Qv.toRat, Qv.ofInt]
  have h11 : (⟨11, 2, by norm_num⟩ : Qv).toRat = 11/2 := by
    norm_num [Qv.toRat]
  rw [h0, h11]
  nlinarith

theorem bulletPass_kept_mem (env : Env) :
    ∀ (bs : List Bullet) (st : PassSt) (b : Bullet),
      b ∈ (bulletPass env bs st).1 → b ∈ bs := by
  intro bs
  induction bs with
  | nil =>
    intro st b h
    simp [bulletPass] at h
  | cons hd tl ih =>
    intro st b h
    unfold bulletPass at h
    rcases hp : bulletPass env tl st with ⟨kept, st1⟩
    rw [hp] at h
    simp only [] at h
    rcases hq : bulletStep env hd st1 with ⟨keep, st2⟩
    rw [hq] at h
    simp only [] at h
    by_cases hkeep : keep = true
    · rw [if_pos hkeep] at h
      rcases List.mem_cons.mp h with h1 | h2
      · exact h1 ▸ List.mem_cons_self _ _
      · exact List.mem_cons_of_mem _ (ih st b (by rw [hp]; exact h2))
    · rw [if_neg hkeep] at h
      exact List.mem_cons_of_mem _ (ih st b (by rw [hp]; exact h))

theorem astShipPass_saucerBullets (env : Env) (asts : List Asteroid)
    (st : HitSt) : (astShipPass env asts st).saucerBullets
      = st.saucerBullets := by
  unfold astShipPass
  split
  · split <;> rfl
  · rfl

theorem sbShipPass_saucerBullets_mem (env : Env) (st : HitSt)
    (sb : SaucerBullet) (h : sb ∈ (sbShipPass env st).saucerBullets) :
    sb ∈ st.saucerBullets := by
  unfold sbShipPass at h
  by_cases hinv : st.ship.invuln ≤ 0
  · rw [if_pos hinv] at h
    cases hrl : removeLast?
        (fun sb2 => distLtB sb2.x sb2.y st.ship.x st.ship.y st.ship.r)
        st.saucerBullets with
    | some pr =>
      obtain ⟨hit, rest⟩ := pr
      rw [hrl] at h
      exact (removeLast?_mem _ st.saucerBullets hit rest hrl).2.2 sb h
    | none =>
      rw [hrl] at h
      exact h
  · rw [if_neg hinv] at h
    exact h

theorem tick_bullets_alive (env : Env) (g : GameState)
    (hs : g.started = true) :
    ∀ b ∈ (tick env g).bullets, Bullet.alive b = true := by
  intro b hb
  have hns : ¬ g.started = false := by rw [hs]; simp
  unfold tick at hb
  rw [if_neg hns] at hb
  simp only [] at hb
  have hb2 := bulletPass_kept_mem env _ _ b hb
  exact (List.mem_filter.mp hb2).2

theorem tick_saucerBullets_alive (env : Env) (g : GameState)
    (hs : g.started = true) :
    ∀ sb ∈ (tick env g).saucerBullets, SaucerBullet.alive sb = true := by
  intro sb hsb
  have hns : ¬ g.started = false := by rw [hs]; simp
  unfold tick at hsb
  rw [if_neg hns] at hsb
  simp only [] at hsb
  rw [astShipPass_saucerBullets] at hsb
  have hsb2 := sbShipPass_saucerBullets_mem env _ sb hsb
  exact (List.mem_filter.mp hsb2).2

/-- Claim C5: bullets and saucer-bullets are lifetime-bounded by
accumulated travel, not by wraps.  The accumulated distances grow linearly
with the tick count and are never reset by wrapping (the per-bullet
`distX`/`distY` accumulate `|dx|`/`|dy|`, the saucer-bullet `dist`
accumulates its constant per-tick path length 5.5); a bullet is dead
exactly when an accumulated component reaches its configured maximum; any
constructed bullet (speed 6, so `dx² + dy² = 36`) is dead after at most 320
ticks and any constructed saucer-bullet after at most 219 ticks, both
numbers derived only from the speed and range configuration; and the tick
loop removes dead (saucer-)bullets, so every (saucer-)bullet present after
a PLAYING tick is alive. -/
theorem C5_bullet_lifetime :
    (∀ (b : Bullet) (t : ℕ),
       (Nat.iterate Bullet.update t b).distX.toRat
           = b.distX.toRat + t * |b.dx.toRat| ∧
       (Nat.iterate Bullet.update t b).distY.toRat
           = b.distY.toRat + t * |b.dy.toRat|) ∧
    (∀ b : Bullet, Bullet.alive b = false ↔
       b.maxX.toRat ≤ b.distX.toRat ∨ b.maxY.toRat ≤ b.distY.toRat) ∧
    (∀ x y dx dy : Qv, dx.toRat ^ 2 + dy.toRat ^ 2 = 36 →
       ∀ t : ℕ, 320 ≤ t →
         Bullet.alive (Nat.iterate Bullet.update t (mkBullet x y dx dy))
           = false) ∧
    (∀ (sb : SaucerBullet) (t : ℕ),
       (Nat.iterate SaucerBullet.update t sb).dist.toRat
         = sb.dist.toRat + t * sb.stepDist.toRat) ∧
    (∀ (x y dx dy : Qv) (t : ℕ), 219 ≤ t →
       SaucerBullet.alive
         (Nat.iterate SaucerBullet.update t (mkSaucerBullet x y dx dy))
         = false) ∧
    (∀ (env : Env) (g : GameState), g.started = true →
       ∀ b ∈ (tick env g).bullets, Bullet.alive b = true) ∧
    (∀ (env : Env) (g : GameState), g.started = true →
       ∀ sb ∈ (tick env g).saucerBullets,
         SaucerBullet.alive sb = true) :=
  ⟨fun b t => ⟨bullet_iterate_distX b t, bullet_iterate_distY b t⟩,
   bullet_alive_iff, bullet_expires,
   fun sb t => sb_iterate_dist sb t, sb_expires,
   tick_bullets_alive, tick_saucerBullets_alive⟩

/-- Concrete instance of `C5_bullet_lifetime`: a bullet fired rightward
(`dx = 6, dy = 0`) is dead after exactly 320 ticks, and a saucer bullet
after 219 ticks. -/
theorem C5_bullet_lifetime_witness :
    Bullet.alive
        (Nat.iterate Bullet.update 320
          (mkBullet q0 q0 (Qv.ofInt 6) q0)) = false ∧
      SaucerBullet.alive
        (Nat.iterate SaucerBullet.update 219
          (mkSaucerBullet q0 q0 ⟨11, 2, by norm_num⟩ q0)) = false :=
  ⟨C5_bullet_lifetime.2.2.1 q0 q0 (Qv.ofInt 6) q0
     (by norm_num [Qv.toRat, Qv.ofInt, q0]) 320 (by norm_num),
   C5_bullet_lifetime.2.2.2.2.1 q0 q0 ⟨11, 2, by norm_num⟩ q0 219
     (by norm_num)⟩

/-- Claim C8: when the scheduled wave-regeneration callback fires and the
collection is still empty, the wave counter is incremented and exactly
`5 + (wave - 1)` asteroids (for the incremented wave) are inserted, with
radii drawn from `randRange(26, 44)`; a stale callback that finds the
collection non-empty is a no-op; and the initial population (which does
not touch the wave counter) has `5 + (1 - 1) = 5` asteroids. -/
theorem C8_wave_regeneration :
    (∀ (env : Env) (g : GameState), g.asteroids = [] →
       (waveReset env g).wave = g.wave + 1 ∧
       (waveReset env g).asteroids.length
           = (5 + ((g.wave + 1) - 1)).toNat ∧
       ((∀ i : ℕ, 26 ≤ (env.spawnDraw i).r.toRat ∧
            (env.spawnDraw i).r.toRat < 44) →
          ∀ a ∈ (waveReset env g).asteroids,
            26 ≤ a.r.toRat ∧ a.r.toRat < 44)) ∧
    (∀ (env : Env) (g : GameState), g.asteroids ≠ [] →
       waveReset env g = g) ∧
    (∀ env : Env, (resetAsteroids env 1).length = 5) := by
  refine ⟨?_, ?_, ?_⟩
  · intro env g hempty
    have hempty2 : g.asteroids.isEmpty = true := by
      rw [hempty]; rfl
    unfold waveReset
    rw [if_pos hempty2]
    refine ⟨rfl, ?_, ?_⟩
    · simp [resetAsteroids]
    · intro hr a ha
      simp only [resetAsteroids, List.mem_map, List.mem_range] at ha
      obtain ⟨i, _, hai⟩ := ha
      have : a.r = (env.spawnDraw i).r := by rw [← hai]; rfl
      rw [this]
      exact hr i
  · intro env g hne
    have : g.asteroids.isEmpty = false := by
      cases hcase : g.asteroids with
      | nil => exact absurd hcase hne
      | cons hd tl => rfl
    unfold waveReset
    rw [this]
    simp
  · intro env
    simp [resetAsteroids]

/-- Concrete instance of `C8_wave_regeneration` at `gC8`: the regeneration
bumps the wave to 2 and inserts `5 + (2 - 1) = 6` asteroids. -/
theorem C8_wave_regeneration_witness :
    (waveReset envT gC8).wave = gC8.wave + 1 ∧
      (waveReset envT gC8).asteroids.length
        = (5 + ((gC8.wave + 1) - 1)).toNat :=
  ⟨(C8_wave_regeneration.1 envT gC8 rfl).1,
   (C8_wave_regeneration.1 envT gC8 rfl).2.1⟩

/-- Helper: read a toRat equation off a decided `Qv.eqv` fact. -/
theorem toRat_of_eqv {a : Qv} {n d : ℤ} {h : 0 < d}
    (he : a.eqv (⟨n, d, h⟩ : Qv)) : a.toRat = (n : ℚ) / (d : ℚ) :=
  (Qv.eqv_iff a ⟨n, d, h⟩).mp he

/-- Claim C9 is false as stated: the drag factor is applied to the velocity
BEFORE the position update, so the ship at `x = 10` with `vx = -5` ends the
tick at `x = 10 + (-5 · 0.995) = 5.025`, not at `wrap(10 - 5) = 5` as the
scenario claims. -/
theorem C9_counterexample :
    shipB.x.toRat = 10 ∧ shipB.vx.toRat = -5 ∧
      (Ship.update (Qv.ofInt 1) q0 shipB).x.toRat = 201/40 ∧
      ((201:ℚ)/40 ≠ 5) := by
  refine ⟨?_, ?_, ?_, by norm_num⟩
  · norm_num [shipB, Qv.toRat, Qv.ofInt]
  · norm_num [shipB, Qv.toRat, Qv.ofInt]
  · have he : (Ship.update (Qv.ofInt 1) q0 shipB).x.eqv
        (⟨201, 40, by norm_num⟩ : Qv) := by decide
    have := toRat_of_eqv he
    rw [this]
    norm_num

/-- Claim C9 (amended): every tick multiplies the velocity by the drag
factor 0.995 regardless of the thrust state (after adding the thrust
impulse when thrusting), and the position is `wrap(position + velocity)`
with the NEW velocity; the world extent is 1200, not 800.  Consequently the
Scenario-B ship reaches `x = 5.025` after one tick, `x = 0.074875` after
two, and `x = wrap(0.074875 - 4.925374375) = 1195.1495003125` after three
(the third tick wraps to just under 1200, not to 795). -/
theorem C9_ship_kinematics_amended :
    (∀ (cA sA : Qv) (s : Ship),
       (Ship.update cA sA s).vx.toRat
           = (if s.thrusting = true
              then s.vx.toRat + 2/25 * cA.toRat
              else s.vx.toRat) * (199/200) ∧
       (Ship.update cA sA s).vy.toRat
           = (if s.thrusting = true
              then s.vy.toRat + 2/25 * sA.toRat
              else s.vy.toRat) * (199/200) ∧
       (Ship.update cA sA s).x
           = wrapX (s.x.add ((Ship.update cA sA s).vx)) ∧
       (Ship.update cA sA s).y
           = wrapY (s.y.add ((Ship.update cA sA s).vy))) ∧
    ((Ship.update (Qv.ofInt 1) q0 shipB).x.toRat = 201/40 ∧
      (Ship.update (Qv.ofInt 1) q0
          (Ship.update (Qv.ofInt 1) q0 shipB)).x.toRat = 599/8000 ∧
      (Ship.update (Qv.ofInt 1) q0 (Ship.update (Qv.ofInt 1) q0
          (Ship.update (Qv.ofInt 1) q0 shipB))).x.toRat
        = 1912239201/1600000) := by
  constructor
  · intro cA sA s
    refine ⟨?_, ?_, ship_update_x cA sA s, ship_update_y cA sA s⟩
    · rw [Ship.update_vx, Qv.toRat_mul, DRAG_toRat]
      by_cases ht : s.thrusting
      · rw [if_pos ht, if_pos ht, Qv.toRat_add, Qv.toRat_mul,
          THRUST_ACCEL_toRat]
      · rw [if_neg ht, if_neg ht]
    · rw [Ship.update_vy, Qv.toRat_mul, DRAG_toRat]
      by_cases ht : s.thrusting
      · rw [if_pos ht, if_pos ht, Qv.toRat_add, Qv.toRat_mul,
          THRUST_ACCEL_toRat]
      · rw [if_neg ht, if_neg ht]
  · refine ⟨?_, ?_, ?_⟩
    · have he : (Ship.update (Qv.ofInt 1) q0 shipB).x.eqv
          (⟨201, 40, by norm_num⟩ : Qv) := by decide
      rw [toRat_of_eqv he]
      norm_num
    · have he : (Ship.update (Qv.ofInt 1) q0
          (Ship.update (Qv.ofInt 1) q0 shipB)).x.eqv
          (⟨599, 8000, by norm_num⟩ : Qv) := by decide
      rw [toRat_of_eqv he]
      norm_num
    · have he : (Ship.update (Qv.ofInt 1) q0 (Ship.update (Qv.ofInt 1) q0
          (Ship.update (Qv.ofInt 1) q0 shipB))).x.eqv
          (⟨1912239201, 1600000, by norm_num⟩ : Qv) := by decide
      rw [toRat_of_eqv he]
      norm_num

theorem splitChildren_mem (env : Env) (rng : ℕ) (a c : Asteroid)
    (hc : c ∈ splitChildren env rng a) :
    20 < a.r.toRat ∧ c.r.toRat = a.r.toRat / 2 := by
  unfold splitChildren at hc
  by_cases hga : q20.lt a.r
  · rw [if_pos hga] at hc
    have hbig : 20 < a.r.toRat := by
      have := (Qv.lt_iff q20 a.r).mp hga
      rwa [q20_toRat] at this
    refine ⟨hbig, ?_⟩
    rcases List.mem_cons.mp hc with h1 | h2
    · rw [h1]
      show (Qv.divPos a.r (Qv.ofInt 2) (by norm_num [Qv.ofInt])).toRat = _
      rw [Qv.toRat_divPos, ofInt2_toRat]
    · rcases List.mem_cons.mp h2 with h3 | h4
      · rw [h3]
        show (Qv.divPos a.r (Qv.ofInt 2) (by norm_num [Qv.ofInt])).toRat
          = _
        rw [Qv.toRat_divPos, ofInt2_toRat]
      · exact absurd h4 (List.not_mem_nil c)
  · rw [if_neg hga] at hc
    exact absurd hc (List.not_mem_nil c)

theorem bulletStep_radOK (env : Env) (b : Bullet) (st : PassSt)
    (h : ∀ a ∈ st.asteroids, radOK a) :
    ∀ a ∈ (bulletStep env b st).2.asteroids, radOK a := by
  intro a ha
  unfold bulletStep at ha
  cases hrl : removeLast? (fun a2 => distLtB b.x b.y a2.x a2.y a2.r)
      st.asteroids with
  | some pr =>
    obtain ⟨hit, rest⟩ := pr
    rw [hrl] at ha
    simp only [] at ha
    rcases List.mem_append.mp ha with h1 | h2
    · exact h a ((removeLast?_mem _ st.asteroids hit rest hrl).2.2 a h1)
    · have hhit : radOK hit :=
        h hit (removeLast?_mem _ st.asteroids hit rest hrl).1
      obtain ⟨hbig, hhalf⟩ := splitChildren_mem env (st.rng + 10) hit a h2
      unfold radOK at hhit ⊢
      rw [hhalf]
      constructor
      · linarith [hbig]
      · linarith [hhit.2]
  | none =>
    rw [hrl] at ha
    simp only [] at ha
    cases hrl2 : removeLast? (fun s => distLtB b.x b.y s.x s.y s.r)
        st.saucers with
    | some pr2 =>
      rw [hrl2] at ha
      simp only [] at ha
      exact h a ha
    | none =>
      rw [hrl2] at ha
      simp only [] at ha
      exact h a ha

theorem bulletPass_radOK (env : Env) :
    ∀ (bs : List Bullet) (st : PassSt),
      (∀ a ∈ st.asteroids, radOK a) →
      ∀ a ∈ (bulletPass env bs st).2.asteroids, radOK a := by
  intro bs
  induction bs with
  | nil => intro st h a ha; exact h a ha
  | cons hd tl ih =>
    intro st h a ha
    unfold bulletPass at ha
    rcases hp : bulletPass env tl st with ⟨kept, st1⟩
    rw [hp] at ha
    simp only [] at ha
    have hst1 : ∀ a2 ∈ st1.asteroids, radOK a2 := by
      intro a2 ha2
      exact ih st h a2 (by rw [hp]; exact ha2)
    rcases hq : bulletStep env hd st1 with ⟨keep, st2⟩
    rw [hq] at ha
    simp only [] at ha
    have := bulletStep_radOK env hd st1 hst1
    rw [hq] at this
    exact this a ha

theorem Asteroid.update_r (a : Asteroid) : (Asteroid.update a).r = a.r :=
  rfl

theorem tick_radOK (env : Env) (g : GameState)
    (h : ∀ a ∈ g.asteroids, radOK a) :
    ∀ a ∈ (tick env g).asteroids, radOK a := by
  by_cases hs : g.started = false
  · rw [tick_not_started env g hs]; exact h
  · intro a ha
    unfold tick at ha
    rw [if_neg hs] at ha
    simp only [] at ha
    refine bulletPass_radOK env _ _ ?_ a ha
    intro a2 ha2
    simp only [List.mem_map] at ha2
    obtain ⟨a0, ha0, ha0eq⟩ := ha2
    have : a2.r = a0.r := by rw [← ha0eq]; rfl
    unfold radOK
    rw [this]
    exact h a0 ha0

theorem splitChildren_two_generations (e1 e2 : Env) (r1 r2 : ℕ)
    (a c gc : Asteroid) (h44 : a.r.toRat ≤ 44)
    (hc : c ∈ splitChildren e1 r1 a) (hgc : gc ∈ splitChildren e2 r2 c) :
    ∀ (e3 : Env) (r3 : ℕ), splitChildren e3 r3 gc = [] := by
  intro e3 r3
  obtain ⟨_, hchalf⟩ := splitChildren_mem e1 r1 a c hc
  obtain ⟨_, hgchalf⟩ := splitChildren_mem e2 r2 c gc hgc
  apply splitChildren_of_small
  rw [hgchalf, hchalf]
  linarith

/-- Claim C10: every reachable asteroid radius lies in `(10, 44]` — the
spawn population draws radii from `[26, 44)`, children exist only when the
parent radius exceeds 20 and get exactly half of it, every tick preserves
the window, and split chains stop after at most two generations (a
grandchild can never split). -/
theorem C10_radius_invariant :
    (∀ (env : Env) (g : GameState), (∀ a ∈ g.asteroids, radOK a) →
       ∀ a ∈ (tick env g).asteroids, radOK a) ∧
    (∀ (env : Env) (w : ℤ),
       (∀ i : ℕ, 26 ≤ (env.spawnDraw i).r.toRat ∧
          (env.spawnDraw i).r.toRat < 44) →
       ∀ a ∈ resetAsteroids env w, 26 ≤ a.r.toRat ∧ a.r.toRat < 44) ∧
    (∀ (env : Env) (rng : ℕ) (a c : Asteroid), c ∈ splitChildren env rng a →
       20 < a.r.toRat ∧ c.r.toRat = a.r.toRat / 2) ∧
    (∀ (e1 e2 : Env) (r1 r2 : ℕ) (a c gc : Asteroid), a.r.toRat ≤ 44 →
       c ∈ splitChildren e1 r1 a → gc ∈ splitChildren e2 r2 c →
       ∀ (e3 : Env) (r3 : ℕ), splitChildren e3 r3 gc = []) := by
  refine ⟨tick_radOK, ?_, splitChildren_mem, splitChildren_two_generations⟩
  intro env w hr a ha
  simp only [resetAsteroids, List.mem_map, List.mem_range] at ha
  obtain ⟨i, _, hai⟩ := ha
  have : a.r = (env.spawnDraw i).r := by rw [← hai]; rfl
  rw [this]
  exact hr i

/-- Concrete instance of `C10_radius_invariant` at `gC4` (whose tick splits
a radius-40 asteroid): every post-tick asteroid keeps a radius in
`(10, 44]`. -/
theorem C10_radius_invariant_witness :
    ∀ a ∈ (tick envT gC4).asteroids, radOK a :=
  C10_radius_invariant.1 envT gC4 (by
    intro a ha
    simp only [gC4, astC4] at ha
    rcases List.mem_singleton.mp ha with h1
    rw [h1]
    unfold radOK
    norm_num [astC4, Qv.toRat, Qv.ofInt])

end Asteroids
